import Mathlib

/-!
# csgo-queue-block: the target registry, the control API, the session and the dispatch tick

A shallow embedding of `src/index.js`.

* The module-level variables `connectInterval`, `blockInterval`,
  `currentVersion` and `users` (lines 16-19) are the fields of `State`.
* JavaScript numbers are embedded as `Int` (exact integers; the code only adds,
  multiplies by 1000 and compares them).
* `Date.now()` is an explicit argument of every function that reads the clock.
  One eviction pass reads the clock once.
* `SteamID.fromIndividualAccountID` and `isValidIndividual` belong to the
  `steamid` package, which is not part of the repository: the constructor is an
  argument of the handlers (`none` stands for a thrown exception) and the
  validity verdict is a field of the value it returns.
* Query parameters are string valued or missing (`Option String`).
* Which express route matches a request is the field `route` of `Request`.
* The intervals that are live in the JavaScript runtime are kept in `Runtime`, next to
  the module-level variables; a message of the coordinator is given by its type and
  by what its payload decodes to.
-/

namespace QueueBlock

/-! ## Data model -/

/-- An element of the `users` array: the object pushed at lines 90-93. -/
structure User where
  id : Int
  expiresAt : Int
deriving DecidableEq, Repr

/-- The fields of `config.json` that the registry code reads. -/
structure Config where
  key : String
  maxUsers : Int
  maxLength : Int
deriving Repr

/-- What the code observes of a `SteamID` object: `accountid` and the verdict
of `isValidIndividual()`. -/
structure SteamID where
  accountid : Int
  isValidIndividual : Bool
deriving DecidableEq, Repr

/-- The module-level variables of lines 16-19. A timer variable holds `none`
for `null` and a handle otherwise. -/
structure State where
  connectInterval : Option Nat
  blockInterval : Option Nat
  currentVersion : Int
  users : List User
deriving DecidableEq, Repr

/-- The state right after the module is loaded (lines 16-19). -/
def State.initial : State :=
  { connectInterval := none, blockInterval := none, currentVersion := 0, users := [] }

/-- The express route that matches the request: lines 34, 42, 109 and the
catch-all of line 150. -/
inductive Route where
  | list
  | add
  | remove
  | other
deriving DecidableEq, Repr

/-- An HTTP request as the handlers see it: the matched route and the query
parameters `key`, `id` and `length` (`none` when the parameter is missing). -/
structure Request where
  route : Route
  key : Option String
  id : Option String
  length : Option String
deriving DecidableEq, Repr

/-- The JSON bodies the server writes. -/
inductive Body where
  | error (error : String)
  | list (success : Bool) (users : List User)
  | added (success : Bool) (expiresAt : Int)
  | removed (success : Bool)
deriving DecidableEq, Repr

/-- An HTTP response: status code (200 when the handler sets none) and body. -/
structure Response where
  status : Nat
  body : Body
deriving DecidableEq, Repr

/-! ## JavaScript built-ins used by the handlers -/

/-- JavaScript `!x` for a query parameter: true for `undefined` and for the
empty string. -/
def falsy : Option String → Bool
  | none => true
  | some s => s.toList.isEmpty

/-- The string a present parameter holds (only used after `falsy` was checked). -/
def paramString : Option String → String
  | none => "undefined"
  | some s => s

/-- White space and line terminators skipped by `parseInt` (ECMAScript
`StrWhiteSpaceChar`). -/
def isStrWhiteSpaceChar (c : Char) : Bool :=
  let n := c.toNat
  n = 9 || n = 10 || n = 11 || n = 12 || n = 13 || n = 32 || n = 160 || n = 5760 ||
  (8192 ≤ n && n ≤ 8202) || n = 8232 || n = 8233 || n = 8239 || n = 8287 ||
  n = 12288 || n = 65279

/-- The value of a character as a digit in bases up to 36. -/
def digitValue (c : Char) : Option Nat :=
  let n := c.toNat
  if 48 ≤ n ∧ n ≤ 57 then some (n - 48)
  else if 97 ≤ n ∧ n ≤ 122 then some (n - 87)
  else if 65 ≤ n ∧ n ≤ 90 then some (n - 55)
  else none

/-- The digits of the longest prefix made of digits of the given radix. -/
def takeDigits (radix : Nat) : List Char → List Nat
  | [] => []
  | c :: cs =>
    match digitValue c with
    | some d => if d < radix then d :: takeDigits radix cs else []
    | none => []

/-- JavaScript `parseInt(string)` with no radix argument; `none` is `NaN`. -/
def parseInt (string : String) : Option Int :=
  let trimmed := string.toList.dropWhile isStrWhiteSpaceChar
  let signed : Int × List Char :=
    match trimmed with
    | '-' :: rest => (-1, rest)
    | '+' :: rest => (1, rest)
    | _ => (1, trimmed)
  let based : Nat × List Char :=
    match signed.2 with
    | '0' :: 'x' :: rest => (16, rest)
    | '0' :: 'X' :: rest => (16, rest)
    | _ => (10, signed.2)
  let digits := takeDigits based.1 based.2
  if digits.isEmpty then none
  else some (signed.1 * ((digits.foldl (fun acc d => acc * based.1 + d) 0 : Nat) : Int))

/-! ## The registry and the control API -/

/-- `UpdateUsers` (lines 254-260): keep the entries with
`user.expiresAt >= Date.now()`. -/
def UpdateUsers (now : Int) (s : State) : State :=
  { s with users := s.users.filter (fun user => decide (user.expiresAt ≥ now)) }

/-- The handler of `GET /list` (lines 34-40). -/
def getList (s : State) : Response × State :=
  (⟨200, Body.list true s.users⟩, s)

/-- The handler of `GET /add` (lines 42-107). `now` is the `Date.now()` of
line 92. -/
def getAdd (config : Config) (fromIndividualAccountID : String → Option SteamID)
    (now : Int) (req : Request) (s : State) : Response × State :=
  if falsy req.id then
    (⟨400, Body.error "Request is missing 'id' parameter"⟩, s)
  else if falsy req.length then
    (⟨400, Body.error "Request is missing 'length' parameter"⟩, s)
  else
    match fromIndividualAccountID (paramString req.id) with
    | none => (⟨400, Body.error "AccountID to add is not a valid Steam individual"⟩, s)
    | some steamID =>
      if !steamID.isValidIndividual then
        (⟨400, Body.error "AccountID to add is not a valid Steam individual"⟩, s)
      else
        let invalid : Response × State :=
          (⟨400, Body.error ("Input length is invalid, it must be between 1 and "
            ++ toString config.maxLength ++ " inclusive")⟩, s)
        match parseInt (paramString req.length) with
        | none => invalid
        | some length =>
          if length ≤ 0 ∨ length > config.maxLength then invalid
          else if (s.users.length : Int) ≥ config.maxUsers then
            (⟨507, Body.error ("Too many users are on the list, maximum "
              ++ toString config.maxUsers)⟩, s)
          else
            match s.users.find? (fun u => decide (u.id = steamID.accountid)) with
            | some user => (⟨200, Body.added false user.expiresAt⟩, s)
            | none =>
              let users := s.users ++ [{ id := steamID.accountid, expiresAt := now + length * 1000 }]
              (⟨200, Body.added true (now + length * 1000)⟩, { s with users := users })

/-- The handler of `GET /remove` (lines 109-148). -/
def getRemove (fromIndividualAccountID : String → Option SteamID)
    (req : Request) (s : State) : Response × State :=
  if falsy req.id then
    (⟨400, Body.error "Request is missing 'id' parameter"⟩, s)
  else
    match fromIndividualAccountID (paramString req.id) with
    | none => (⟨400, Body.error "AccountID to add is not a valid Steam individual"⟩, s)
    | some steamID =>
      if !steamID.isValidIndividual then
        (⟨400, Body.error "AccountID to add is not a valid Steam individual"⟩, s)
      else
        match s.users.findIdx? (fun u => decide (u.id = steamID.accountid)) with
        | none => (⟨200, Body.removed false⟩, s)
        | some index => (⟨200, Body.removed true⟩, { s with users := s.users.eraseIdx index })

/-- The catch-all handler (lines 150-155). -/
def allOther (s : State) : Response × State :=
  (⟨400, Body.error "Invalid request, view code for more information"⟩, s)

/-- The route handler express runs once the middleware called `next()`. -/
def routeHandler (config : Config) (fromIndividualAccountID : String → Option SteamID)
    (now : Int) (req : Request) (s : State) : Response × State :=
  match req.route with
  | Route.list => getList s
  | Route.add => getAdd config fromIndividualAccountID now req s
  | Route.remove => getRemove fromIndividualAccountID req s
  | Route.other => allOther s

/-- One HTTP request through the server: the key middleware of lines 21-32
and then the matching route. `tEvict` is the clock of the eviction pass of
line 30, `tRoute` the clock read by the route handler. -/
def handleRequest (config : Config) (fromIndividualAccountID : String → Option SteamID)
    (req : Request) (tEvict tRoute : Int) (s : State) : Response × State :=
  if req.key ≠ some config.key then
    (⟨401, Body.error "Key mismatch, retrying will not help"⟩, s)
  else
    routeHandler config fromIndividualAccountID tRoute req (UpdateUsers tEvict s)

/-! ## The dispatch tick -/

/-- The message types the program sends to the game coordinator. -/
inductive GCMsgType where
  | k_EMsgGCClientHello
  | k_EMsgGCCStrike15_v2_MatchmakingStart
deriving DecidableEq, Repr

/-- The protobuf objects the program encodes. -/
inductive GCPayload where
  | CMsgClientHello
  | CMsgGCCStrike15_v2_MatchmakingStart (client_version : Int) (game_type : Int)
      (account_ids : List Int)
deriving DecidableEq, Repr

/-- One call `client.sendToGC(appid, msgType, {}, payload)`. -/
structure GCMessage where
  appid : Nat
  msgType : GCMsgType
  payload : GCPayload
deriving DecidableEq, Repr

/-- The message built at lines 292-304 for one entry of `users`. -/
def blockMessage (currentVersion : Int) (self : SteamID) (user : User) : GCMessage :=
  { appid := 730
    msgType := GCMsgType.k_EMsgGCCStrike15_v2_MatchmakingStart
    payload := GCPayload.CMsgGCCStrike15_v2_MatchmakingStart currentVersion 519
      [self.accountid, user.id] }

/-- `BlockUsers` (lines 275-306): the new state and the messages sent, in the
order they are sent. `steamID` is `client.steamID` (`none` for `null`). -/
def BlockUsers (steamID : Option SteamID) (now : Int) (s : State) : State × List GCMessage :=
  let s1 := UpdateUsers now s
  match steamID with
  | none => (s1, [])
  | some self =>
    if s1.users.length ≤ 0 then (s1, [])
    else (s1, s1.users.map (blockMessage s1.currentVersion self))

/-- The account the message targets: the second element of `account_ids`. -/
def GCMessage.target (m : GCMessage) : Option Int :=
  match m.payload with
  | GCPayload.CMsgGCCStrike15_v2_MatchmakingStart _ _ [_, target] => some target
  | _ => none

/-! ## Executions of the registry -/

/-- The events that touch the registry: an HTTP request, a bare eviction
pass, and a tick of the block-dispatch interval. -/
inductive Event where
  | request (req : Request) (tEvict tRoute : Int)
  | updateUsers (now : Int)
  | blockUsers (steamID : Option SteamID) (now : Int)

/-- The state after one event. -/
def step (config : Config) (fromIndividualAccountID : String → Option SteamID)
    (s : State) : Event → State
  | Event.request req tEvict tRoute =>
    (handleRequest config fromIndividualAccountID req tEvict tRoute s).2
  | Event.updateUsers now => UpdateUsers now s
  | Event.blockUsers steamID now => (BlockUsers steamID now s).1

/-- The state after a sequence of events, starting from the freshly loaded
module. -/
def run (config : Config) (fromIndividualAccountID : String → Option SteamID)
    (events : List Event) : State :=
  events.foldl (step config fromIndividualAccountID) State.initial

/-- No two entries of the list have the same `id`. -/
def UniqueIds (users : List User) : Prop :=
  users.Pairwise (fun a b => a.id ≠ b.id)

/-! ## The session: timers and coordinator events

The handlers of lines 161-241 start and stop intervals. `State` only holds what the
two timer variables store, so the intervals that are live in the JavaScript runtime
are kept next to it in `Runtime`. A synchronous handler runs to completion before the
next event is handled. The handler of `loggedOn` is `async`: it is suspended at the
`await` of line 165 and lines 166-173 run in a later task, when the promise of
`requestFreeLicense` has settled, after whatever events were handled in between.
`Runtime` counts the handlers that are suspended there.
-/

/-- The two functions the program passes to `setInterval`. -/
inductive Callback where
  | ConnectToGC
  | BlockUsers
deriving DecidableEq, Repr

/-- A live interval: the handle `setInterval` returned, the function it calls and
its period in milliseconds. -/
structure Interval where
  handle : Nat
  callback : Callback
  delay : Nat
deriving DecidableEq, Repr

/-- The module-level variables together with the intervals that are live, the next
handle `setInterval` will hand out, and the number of `loggedOn` handlers suspended at
the `await` of line 165. -/
structure Runtime where
  vars : State
  intervals : List Interval
  nextHandle : Nat
  pendingLogOn : Nat
deriving DecidableEq, Repr

/-- The runtime right after the module is loaded: no interval was created yet. -/
def Runtime.initial : Runtime :=
  { vars := State.initial, intervals := [], nextHandle := 0, pendingLogOn := 0 }

/-- JavaScript `setInterval(callback, delay)`: a fresh handle, now live. -/
def setInterval (callback : Callback) (delay : Nat) (rt : Runtime) : Nat × Runtime :=
  (rt.nextHandle,
    { rt with
      intervals := rt.intervals ++ [{ handle := rt.nextHandle, callback := callback, delay := delay }]
      nextHandle := rt.nextHandle + 1 })

/-- JavaScript `clearInterval(handle)`: the interval with that handle, if it is live,
is live no more; `clearInterval(null)` does nothing. -/
def clearInterval (handle : Option Nat) (rt : Runtime) : Runtime :=
  { rt with intervals := rt.intervals.filter (fun t => decide (some t.handle ≠ handle)) }

/-- The record `global_stats` of the decoded matchmaking payload. -/
structure GlobalStatistics where
  required_appid_version : Int
deriving DecidableEq, Repr

/-- The object `body2` of line 194: the decoded `game_data2`. `global_stats` is `none`
when the record is not in the payload (the field then holds `null`). -/
structure MatchmakingGC2ClientHello where
  global_stats : Option GlobalStatistics
deriving DecidableEq, Repr

/-- The object `body` of line 185. `game_data2` is `none` when the field is falsy,
and otherwise what it decodes to. -/
structure CMsgClientWelcome where
  game_data2 : Option MatchmakingGC2ClientHello
deriving DecidableEq, Repr

/-- The values of the enum `GCConnectionStatus` the handler tells apart. -/
inductive GCConnectionStatus where
  | GCConnectionStatus_HAVE_SESSION
  | otherStatus (value : Int)
deriving DecidableEq, Repr

/-- The object `body` of line 213. -/
structure CMsgConnectionStatus where
  status : GCConnectionStatus
deriving DecidableEq, Repr

/-- A message of the game coordinator: its type and what its payload decodes to. -/
inductive GCReceived where
  | k_EMsgGCClientWelcome (body : CMsgClientWelcome)
  | k_EMsgGCClientConnectionStatus (body : CMsgConnectionStatus)
  | otherMsgType
deriving DecidableEq, Repr

/-- What a handler leaves behind: the runtime, and whether it was left by an
exception. -/
structure Outcome where
  rt : Runtime
  threw : Bool
deriving DecidableEq, Repr

/-- The handler of `loggedOn` up to the `await` of line 165 (lines 161-165): it logs,
calls `requestFreeLicense` and is suspended; no variable is assigned. -/
def onLoggedOn (rt : Runtime) : Runtime :=
  { rt with pendingLogOn := rt.pendingLogOn + 1 }

/-- The rest of the `loggedOn` handler (lines 166-173), which runs once the promise
of `requestFreeLicense` has settled, fulfilled or rejected: lines 172-173 touch the
state. -/
def loggedOnContinuation (rt : Runtime) : Runtime :=
  let rt1 := clearInterval rt.vars.connectInterval rt
  let started := setInterval Callback.ConnectToGC 1000 rt1
  { started.2 with vars := { started.2.vars with connectInterval := some started.1 } }

/-- The promise of `requestFreeLicense` settles: a suspended `loggedOn` handler, if
there is one, runs its continuation. -/
def onLicenseSettled (rt : Runtime) : Runtime :=
  if rt.pendingLogOn = 0 then rt
  else loggedOnContinuation { rt with pendingLogOn := rt.pendingLogOn - 1 }

/-- The welcome branch of `receivedFromGC` (lines 183-210). Reading
`required_appid_version` of a `global_stats` that is `null` throws a `TypeError`
before any variable is assigned. -/
def onClientWelcome (body : CMsgClientWelcome) (rt : Runtime) : Outcome :=
  match body.game_data2 with
  | some body2 =>
    match body2.global_stats with
    | none => { rt := rt, threw := true }
    | some global_stats =>
      let rt1 : Runtime :=
        { rt with vars := { rt.vars with currentVersion := global_stats.required_appid_version } }
      let rt2 := clearInterval rt1.vars.connectInterval rt1
      let rt3 := clearInterval rt2.vars.blockInterval rt2
      let started := setInterval Callback.BlockUsers 2500 rt3
      { rt := { started.2 with vars := { started.2.vars with blockInterval := some started.1 } }
        threw := false }
  | none => { rt := rt, threw := false }

/-- The connection-status branch of `receivedFromGC` (lines 211-229). -/
def onConnectionStatus (body : CMsgConnectionStatus) (rt : Runtime) : Outcome :=
  if body.status ≠ GCConnectionStatus.GCConnectionStatus_HAVE_SESSION then
    let rt1 := clearInterval rt.vars.blockInterval rt
    let rt2 := clearInterval rt1.vars.connectInterval rt1
    let started := setInterval Callback.ConnectToGC 1000 rt2
    { rt := { started.2 with vars := { started.2.vars with connectInterval := some started.1 } }
      threw := false }
  else
    { rt := rt, threw := false }

/-- The handler of `receivedFromGC` (lines 176-234). -/
def onReceivedFromGC (appID : Nat) (msg : GCReceived) (rt : Runtime) : Outcome :=
  if appID ≠ 730 then { rt := rt, threw := false }
  else
    match msg with
    | GCReceived.k_EMsgGCClientWelcome body => onClientWelcome body rt
    | GCReceived.k_EMsgGCClientConnectionStatus body => onConnectionStatus body rt
    | GCReceived.otherMsgType => { rt := rt, threw := false }

/-- The handler of `disconnected` (lines 236-241). -/
def onDisconnected (rt : Runtime) : Runtime :=
  clearInterval (clearInterval rt.vars.connectInterval rt).vars.blockInterval
    (clearInterval rt.vars.connectInterval rt)

/-- `ConnectToGC` (lines 262-273): the hello message it sends; no variable changes. -/
def ConnectToGC : GCMessage :=
  { appid := 730, msgType := GCMsgType.k_EMsgGCClientHello, payload := GCPayload.CMsgClientHello }

/-- Everything that can happen to the program: the events of the client, the
settling of the promise a `loggedOn` handler awaits, the ticks of the two intervals and
an HTTP request. -/
inductive ProgramEvent where
  | loggedOn
  | licenseSettled
  | receivedFromGC (appID : Nat) (msg : GCReceived)
  | disconnected
  | connectTick
  | blockTick (steamID : Option SteamID) (now : Int)
  | request (req : Request) (tEvict tRoute : Int)
deriving DecidableEq, Repr

/-- The runtime after one event. A tick runs its function; a handler left by an
exception leaves what it had done so far. -/
def Runtime.step (config : Config) (fromIndividualAccountID : String → Option SteamID)
    (rt : Runtime) : ProgramEvent → Runtime
  | ProgramEvent.loggedOn => onLoggedOn rt
  | ProgramEvent.licenseSettled => onLicenseSettled rt
  | ProgramEvent.receivedFromGC appID msg => (onReceivedFromGC appID msg rt).rt
  | ProgramEvent.disconnected => onDisconnected rt
  | ProgramEvent.connectTick => rt
  | ProgramEvent.blockTick steamID now => { rt with vars := (BlockUsers steamID now rt.vars).1 }
  | ProgramEvent.request req tEvict tRoute =>
    { rt with vars := (handleRequest config fromIndividualAccountID req tEvict tRoute rt.vars).2 }

/-- The runtime after a sequence of events, from a given runtime. -/
def Runtime.runFrom (config : Config) (fromIndividualAccountID : String → Option SteamID)
    (rt : Runtime) (events : List ProgramEvent) : Runtime :=
  events.foldl (Runtime.step config fromIndividualAccountID) rt

/-- The runtime after a sequence of events, from the freshly loaded module. -/
def Runtime.run (config : Config) (fromIndividualAccountID : String → Option SteamID)
    (events : List ProgramEvent) : Runtime :=
  Runtime.runFrom config fromIndividualAccountID Runtime.initial events

/-- The live intervals that call the given function. -/
def Runtime.live (rt : Runtime) (callback : Callback) : List Interval :=
  rt.intervals.filter (fun t => decide (t.callback = callback))

/-- The variable in which the program stores the handle of the interval calling the
given function. -/
def storedHandle (s : State) : Callback → Option Nat
  | Callback.ConnectToGC => s.connectInterval
  | Callback.BlockUsers => s.blockInterval

/-- Every live interval is the one whose handle its variable stores, handles are
not handed out twice, and live handles are older than the next one. -/
def TimersOwned (rt : Runtime) : Prop :=
  (∀ t ∈ rt.intervals, t.handle < rt.nextHandle) ∧
  (rt.intervals.map Interval.handle).Nodup ∧
  (∀ t ∈ rt.intervals, storedHandle rt.vars t.callback = some t.handle)

/-- The phases of the session in the specification (section 3). -/
inductive Phase where
  | Disconnected
  | Connected
  | AwaitingWelcome
  | Ready
deriving DecidableEq, Repr

/-- The phase as the specification tracks it (section 4.2): authenticated enters
`Connected`, a welcome carrying the matchmaking payload enters `Ready`, a connection
status other than "has active session" returns to `Connected`, disconnect enters
`Disconnected`; everything else changes nothing. -/
def specPhase (phase : Phase) : ProgramEvent → Phase
  | ProgramEvent.loggedOn => Phase.Connected
  | ProgramEvent.receivedFromGC appID (GCReceived.k_EMsgGCClientWelcome body) =>
    if appID = 730 ∧ body.game_data2.isSome then Phase.Ready else phase
  | ProgramEvent.receivedFromGC appID (GCReceived.k_EMsgGCClientConnectionStatus body) =>
    if appID = 730 ∧ body.status ≠ GCConnectionStatus.GCConnectionStatus_HAVE_SESSION
    then Phase.Connected else phase
  | ProgramEvent.disconnected => Phase.Disconnected
  | _ => phase

/-- The specification's phase after a sequence of events, starting `Disconnected`. -/
def specPhaseAfter (events : List ProgramEvent) : Phase :=
  events.foldl specPhase Phase.Disconnected

/-- The loop of lines 291-305 when `client.sendToGC` may throw: `fails i` tells
whether the call number `i` of the tick throws. The result is the list of messages
whose send was attempted, in order, and whether the loop was left by an exception. -/
def sendLoop (fails : Nat → Bool) : Nat → List GCMessage → List GCMessage × Bool
  | _, [] => ([], false)
  | i, m :: ms =>
    if fails i then ([m], true)
    else (m :: (sendLoop fails (i + 1) ms).1, (sendLoop fails (i + 1) ms).2)

/-- `BlockUsers` (lines 275-306) when `client.sendToGC` may throw: the new state, the
messages whose send was attempted and whether the tick was left by an exception. -/
def BlockUsersFallible (fails : Nat → Bool) (steamID : Option SteamID) (now : Int)
    (s : State) : State × List GCMessage × Bool :=
  let s1 := UpdateUsers now s
  match steamID with
  | none => (s1, [], false)
  | some self =>
    if s1.users.length ≤ 0 then (s1, [], false)
    else (s1, sendLoop fails 0 (s1.users.map (blockMessage s1.currentVersion self)))

/-- A welcome whose matchmaking payload carries a required version, for app 730. -/
def welcomeWith (version : Int) : ProgramEvent :=
  ProgramEvent.receivedFromGC 730
    (GCReceived.k_EMsgGCClientWelcome { game_data2 := some { global_stats := some ⟨version⟩ } })

/-- Whether the event is a welcome of app 730 that carries a required version. -/
def ProgramEvent.carriesVersion : ProgramEvent → Bool
  | ProgramEvent.receivedFromGC appID (GCReceived.k_EMsgGCClientWelcome body) =>
    match body.game_data2 with
    | some body2 => decide (appID = 730) && body2.global_stats.isSome
    | none => false
  | _ => false

/-! ## Sample data -/

/-- A `steamid` constructor for the examples: decimal account ids, valid
when non-zero. -/
def sampleFromIndividualAccountID (s : String) : Option SteamID :=
  match parseInt s with
  | none => some { accountid := 0, isValidIndividual := false }
  | some n => some { accountid := n, isValidIndividual := decide (n ≠ 0) }

/-- A configuration for the examples: capacity 10, at most one hour. -/
def sampleConfig : Config := { key := "secret", maxUsers := 10, maxLength := 3600 }

/-- A key-authorised request to `sampleConfig`. -/
def sampleRequest (route : Route) (id length : Option String) : Request :=
  { route := route, key := some "secret", id := id, length := length }

/-- A configuration with room for a single entry. -/
def tinyConfig : Config := { key := "secret", maxUsers := 1, maxLength := 3600 }

/-- A state whose registry is the given list and whose session fields are those of
the freshly loaded module. -/
def stateOf (users : List User) : State :=
  { State.initial with users := users }

end QueueBlock

namespace QueueBlock

/-! ## Auxiliary facts -/

theorem falsy_some_of_ne (s : String) (h : s ≠ "") : falsy (some s) = false := by
  cases s with
  | mk data =>
    cases data with
    | nil => exact absurd rfl h
    | cons c cs => rfl

theorem ne_empty_of_parseInt {len : String} {n : Int} (h : parseInt len = some n) :
    len ≠ "" := by
  intro he
  subst he
  have hnone : parseInt "" = none := by decide
  rw [hnone] at h
  cases h

/-- The `/add` handler once the parameters are present, the identity is a valid
individual and the length parses: the chain of lines 71-99. -/
theorem getAdd_valid (config : Config) (lib : String → Option SteamID) (now : Int)
    (route : Route) (key : Option String) (id len : String) (steamID : SteamID) (n : Int)
    (s : State) (hid : id ≠ "") (hlib : lib id = some steamID)
    (hvalid : steamID.isValidIndividual = true) (hlen : parseInt len = some n) :
    getAdd config lib now ⟨route, key, some id, some len⟩ s =
      if n ≤ 0 ∨ n > config.maxLength then
        (⟨400, Body.error ("Input length is invalid, it must be between 1 and "
          ++ toString config.maxLength ++ " inclusive")⟩, s)
      else if (s.users.length : Int) ≥ config.maxUsers then
        (⟨507, Body.error ("Too many users are on the list, maximum "
          ++ toString config.maxUsers)⟩, s)
      else
        match s.users.find? (fun u => decide (u.id = steamID.accountid)) with
        | some user => (⟨200, Body.added false user.expiresAt⟩, s)
        | none =>
          (⟨200, Body.added true (now + n * 1000)⟩,
            { s with users := s.users ++ [{ id := steamID.accountid, expiresAt := now + n * 1000 }] }) := by
  unfold getAdd
  simp only [falsy_some_of_ne _ hid, falsy_some_of_ne _ (ne_empty_of_parseInt hlen),
    paramString, hlib, hvalid, hlen]
  rfl

/-- An authorised request is the route handler run on the evicted state. -/
theorem handleRequest_authorised (config : Config) (lib : String → Option SteamID)
    (route : Route) (id len : Option String) (tEvict tRoute : Int) (s : State) :
    handleRequest config lib ⟨route, some config.key, id, len⟩ tEvict tRoute s =
      routeHandler config lib tRoute ⟨route, some config.key, id, len⟩ (UpdateUsers tEvict s) := by
  unfold handleRequest
  simp

theorem mem_UpdateUsers {now : Int} {s : State} {u : User} :
    u ∈ (UpdateUsers now s).users ↔ u ∈ s.users ∧ now ≤ u.expiresAt := by
  unfold UpdateUsers
  simp

theorem UpdateUsers_users (now : Int) (s : State) :
    (UpdateUsers now s).users = s.users.filter (fun user => decide (user.expiresAt ≥ now)) :=
  rfl

theorem UniqueIds_filter {users : List User} (p : User → Bool) (h : UniqueIds users) :
    UniqueIds (users.filter p) :=
  List.Pairwise.sublist (List.filter_sublist users) h

theorem UniqueIds_eraseIdx {users : List User} (i : Nat) (h : UniqueIds users) :
    UniqueIds (users.eraseIdx i) :=
  List.Pairwise.sublist (List.eraseIdx_sublist users i) h

theorem UniqueIds_append_fresh {users : List User} (u : User) (h : UniqueIds users)
    (hfresh : ∀ x ∈ users, x.id ≠ u.id) : UniqueIds (users ++ [u]) := by
  unfold UniqueIds at *
  rw [List.pairwise_append]
  refine ⟨h, List.pairwise_singleton _ _, ?_⟩
  intro a ha b hb
  rw [List.mem_singleton] at hb
  subst hb
  exact hfresh a ha

theorem find_none_fresh {users : List User} {a : Int}
    (h : users.find? (fun u => decide (u.id = a)) = none) : ∀ x ∈ users, x.id ≠ a := by
  intro x hx
  have := List.find?_eq_none.mp h x hx
  simpa using this

/-- The registry after `/add` is the registry before it, or that registry, which was
below capacity, with one entry of a fresh id appended. -/
theorem getAdd_users (config : Config) (lib : String → Option SteamID) (now : Int)
    (req : Request) (s : State) :
    (getAdd config lib now req s).2 = s ∨
    ∃ u : User, (∀ x ∈ s.users, x.id ≠ u.id) ∧ (s.users.length : Int) < config.maxUsers ∧
      (getAdd config lib now req s).2 = { s with users := s.users ++ [u] } := by
  unfold getAdd
  split
  · exact Or.inl rfl
  · split
    · exact Or.inl rfl
    · split
      · exact Or.inl rfl
      · split
        · exact Or.inl rfl
        · split
          · exact Or.inl rfl
          · split
            · exact Or.inl rfl
            · split
              · exact Or.inl rfl
              · split
                · exact Or.inl rfl
                · refine Or.inr ⟨⟨_, _⟩, ?_, ?_, rfl⟩
                  · exact find_none_fresh (by assumption)
                  · omega

/-- The registry after `/remove` is the registry before it with at most one entry
erased. -/
theorem getRemove_users (lib : String → Option SteamID) (req : Request) (s : State) :
    (getRemove lib req s).2 = s ∨
    ∃ i, (getRemove lib req s).2 = { s with users := s.users.eraseIdx i } := by
  unfold getRemove
  split
  · exact Or.inl rfl
  · split
    · exact Or.inl rfl
    · split
      · exact Or.inl rfl
      · split
        · exact Or.inl rfl
        · exact Or.inr ⟨_, rfl⟩

theorem BlockUsers_state (steamID : Option SteamID) (now : Int) (s : State) :
    (BlockUsers steamID now s).1 = UpdateUsers now s := by
  unfold BlockUsers
  cases steamID with
  | none => rfl
  | some self =>
    dsimp only
    split <;> rfl

/-- A request leaves a sublist of the registry, or appends one entry of a fresh id to
the evicted registry, which was below capacity. -/
theorem handleRequest_users (config : Config) (lib : String → Option SteamID) (s : State)
    (req : Request) (tEvict tRoute : Int) :
    (handleRequest config lib req tEvict tRoute s).2.users.Sublist s.users ∨
    ∃ u : User, (∀ x ∈ (UpdateUsers tEvict s).users, x.id ≠ u.id) ∧
      ((UpdateUsers tEvict s).users.length : Int) < config.maxUsers ∧
      (handleRequest config lib req tEvict tRoute s).2.users
        = (UpdateUsers tEvict s).users ++ [u] := by
  have hsub : (UpdateUsers tEvict s).users.Sublist s.users := List.filter_sublist s.users
  unfold handleRequest
  split
  · exact Or.inl (List.Sublist.refl _)
  · unfold routeHandler
    split
    · exact Or.inl hsub
    · rcases getAdd_users config lib tRoute req (UpdateUsers tEvict s) with h | ⟨u, h1, h2, h3⟩
      · rw [h]; exact Or.inl hsub
      · exact Or.inr ⟨u, h1, h2, by rw [h3]⟩
    · rcases getRemove_users lib req (UpdateUsers tEvict s) with h | ⟨i, h⟩
      · rw [h]; exact Or.inl hsub
      · rw [h]
        exact Or.inl ((List.eraseIdx_sublist _ i).trans hsub)
    · exact Or.inl hsub

/-- Every event leaves a sublist of the registry, or appends one entry of a fresh id
to an evicted registry that was below capacity. -/
theorem step_users (config : Config) (lib : String → Option SteamID) (s : State) (e : Event) :
    (step config lib s e).users.Sublist s.users ∨
    ∃ (now : Int) (u : User), (∀ x ∈ (UpdateUsers now s).users, x.id ≠ u.id) ∧
      ((UpdateUsers now s).users.length : Int) < config.maxUsers ∧
        (step config lib s e).users = (UpdateUsers now s).users ++ [u] := by
  have hsub : ∀ now, (UpdateUsers now s).users.Sublist s.users :=
    fun now => List.filter_sublist s.users
  cases e with
  | updateUsers now => exact Or.inl (hsub now)
  | blockUsers steamID now =>
    left
    show ((BlockUsers steamID now s).1).users.Sublist s.users
    rw [BlockUsers_state]
    exact hsub now
  | request req tEvict tRoute =>
    rcases handleRequest_users config lib s req tEvict tRoute with h | ⟨u, h1, h2, h3⟩
    · exact Or.inl h
    · exact Or.inr ⟨tEvict, u, h1, h2, h3⟩

theorem step_UniqueIds (config : Config) (lib : String → Option SteamID) (s : State)
    (e : Event) (h : UniqueIds s.users) : UniqueIds (step config lib s e).users := by
  rcases step_users config lib s e with hs | ⟨now, u, h1, _, h3⟩
  · exact List.Pairwise.sublist hs h
  · rw [h3]
    exact UniqueIds_append_fresh u (UniqueIds_filter _ h) h1

theorem step_bound (config : Config) (lib : String → Option SteamID) (s : State)
    (e : Event) (h : (s.users.length : Int) ≤ config.maxUsers) :
    ((step config lib s e).users.length : Int) ≤ config.maxUsers := by
  rcases step_users config lib s e with hs | ⟨now, u, _, h2, h3⟩
  · have := hs.length_le
    omega
  · rw [h3]
    simp only [List.length_append, List.length_singleton]
    omega

theorem foldl_invariant (config : Config) (lib : String → Option SteamID) (P : State → Prop)
    (hstep : ∀ s e, P s → P (step config lib s e)) (events : List Event) (s : State)
    (h : P s) : P (events.foldl (step config lib) s) := by
  induction events generalizing s with
  | nil => exact h
  | cons e es ih => exact ih _ (hstep s e h)

theorem eq_of_UniqueIds {users : List User} (h : UniqueIds users) {a b : User}
    (ha : a ∈ users) (hb : b ∈ users) (hid : a.id = b.id) : a = b := by
  have hnodup : (users.map User.id).Nodup := by
    unfold UniqueIds at h
    exact List.pairwise_map.mpr h
  exact List.inj_on_of_nodup_map hnodup ha hb hid

theorem UpdateUsers_eq_self {now : Int} {s : State}
    (h : ∀ u ∈ s.users, now ≤ u.expiresAt) : UpdateUsers now s = s := by
  unfold UpdateUsers
  have hf : s.users.filter (fun user => decide (user.expiresAt ≥ now)) = s.users :=
    List.filter_eq_self.mpr (fun u hu => by simpa using h u hu)
  rw [hf]

/-- Under unique ids, erasing the first entry of an id erases every entry of it. -/
theorem eraseIdx_findIdx (a : Int) (users : List User) (huniq : UniqueIds users) (i : Nat)
    (h : users.findIdx? (fun u => decide (u.id = a)) = some i) :
    users.eraseIdx i = users.filter (fun u => decide (u.id ≠ a)) := by
  induction users generalizing i with
  | nil => simp at h
  | cons x xs ih =>
    have hcons := List.pairwise_cons.mp huniq
    rw [List.findIdx?_cons] at h
    by_cases hx : x.id = a
    · have hi : i = 0 := by simpa [hx] using h.symm
      subst hi
      have hrest : ∀ u ∈ xs, decide (u.id ≠ a) = true := by
        intro u hu
        have := hcons.1 u hu
        rw [hx] at this
        simpa using fun hc => this hc.symm
      rw [List.eraseIdx_cons_zero, List.filter_cons, List.filter_eq_self.mpr hrest]
      simp [hx]
    · have h2 : xs.findIdx? (fun u => decide (u.id = a)) (0 + 1) = some i := by
        simpa [hx] using h
      rw [List.findIdx?_succ] at h2
      obtain ⟨j, hj, hji⟩ := Option.map_eq_some'.mp h2
      subst hji
      rw [List.eraseIdx_cons_succ, ih hcons.2 j hj, List.filter_cons]
      simp [hx]

/-- The `/remove` handler once the parameter is present and the identity is a valid
individual: lines 129-141. -/
theorem getRemove_valid (lib : String → Option SteamID) (route : Route)
    (key len : Option String) (id : String) (steamID : SteamID) (s : State)
    (hid : id ≠ "") (hlib : lib id = some steamID)
    (hvalid : steamID.isValidIndividual = true) :
    getRemove lib ⟨route, key, some id, len⟩ s =
      match s.users.findIdx? (fun u => decide (u.id = steamID.accountid)) with
      | none => (⟨200, Body.removed false⟩, s)
      | some index => (⟨200, Body.removed true⟩, { s with users := s.users.eraseIdx index }) := by
  unfold getRemove
  simp only [falsy_some_of_ne _ hid, paramString, hlib, hvalid]
  rfl

/-- Under unique ids exactly one entry of the list has the id of a given member. -/
theorem filter_id_length_one {users : List User} (huniq : UniqueIds users) {u : User}
    (hu : u ∈ users) : (users.filter (fun x => decide (x.id = u.id))).length = 1 := by
  induction users with
  | nil => cases hu
  | cons x xs ih =>
    have hcons := List.pairwise_cons.mp huniq
    by_cases hx : x.id = u.id
    · have hnil : xs.filter (fun y => decide (y.id = u.id)) = [] := by
        rw [List.filter_eq_nil_iff]
        intro y hy
        have := hcons.1 y hy
        rw [hx] at this
        simpa using fun hc => this hc.symm
      rw [List.filter_cons, if_pos (by simpa using hx), hnil]
      rfl
    · have hmem : u ∈ xs := by
        rcases List.mem_cons.mp hu with h | h
        · exact absurd (by rw [h]) hx
        · exact h
      rw [List.filter_cons, if_neg (by simpa using hx)]
      exact ih hcons.2 hmem

theorem target_blockMessage (v : Int) (self : SteamID) (u : User) :
    (blockMessage v self u).target = some u.id :=
  rfl

/-! ## C1: uniqueness of ids -/

/-- C1. In every state reached from the empty registry by any sequence of HTTP
requests (of any route, authorised or not), eviction passes and dispatch ticks, at
arbitrary clock readings, no two entries of `users` have the same `id`. -/
theorem registry_ids_unique (config : Config) (lib : String → Option SteamID)
    (events : List Event) : UniqueIds (run config lib events).users :=
  foldl_invariant config lib (fun s => UniqueIds s.users)
    (fun s e h => step_UniqueIds config lib s e h) events State.initial List.Pairwise.nil

/-! ## C5: the capacity bound -/

/-- C5. When `config.maxUsers` is not negative, in every state reached from the empty
registry by any sequence of requests, eviction passes and dispatch ticks the registry
holds at most `config.maxUsers` entries. -/
theorem registry_bounded (config : Config) (lib : String → Option SteamID)
    (events : List Event) (hmax : 0 ≤ config.maxUsers) :
    ((run config lib events).users.length : Int) ≤ config.maxUsers :=
  foldl_invariant config lib (fun s => (s.users.length : Int) ≤ config.maxUsers)
    (fun s e h => step_bound config lib s e h) events State.initial (by simpa using hmax)

/-! ## C2: eviction -/

/-- C2, counterexample. An entry whose `expiresAt` equals the clock reading survives
`UpdateUsers`: with the registry `[{id: 1, expiresAt: 5}]` and `now = 5` the entry
remains, is listed by `/list` and is dispatched by `BlockUsers`, although
`expiresAt <= now`. -/
theorem eviction_keeps_entry_expiring_now :
    (UpdateUsers 5 (stateOf [⟨1, 5⟩])).users = [⟨1, 5⟩] ∧
    (¬ ∀ u ∈ (UpdateUsers 5 (stateOf [⟨1, 5⟩])).users, ¬ u.expiresAt ≤ 5) ∧
    (handleRequest sampleConfig sampleFromIndividualAccountID
        (sampleRequest Route.list none none) 5 5 (stateOf [⟨1, 5⟩])).1
      = ⟨200, Body.list true [⟨1, 5⟩]⟩ ∧
    (BlockUsers (some ⟨7, true⟩) 5 (stateOf [⟨1, 5⟩])).2
      = [blockMessage 0 ⟨7, true⟩ ⟨1, 5⟩] := by
  refine ⟨by decide, ?_, by decide, by decide⟩
  intro h
  exact h ⟨1, 5⟩ (by decide) (by decide)

/-- C2, amended. After `UpdateUsers` runs at `now` no entry with `expiresAt < now`
remains in `users`; an authorised `/list` whose eviction pass runs at `now` answers
exactly the evicted registry, and a `BlockUsers` tick at `now` sends exactly the
messages of the evicted registry, so neither contains an entry with
`expiresAt < now`. -/
theorem eviction_removes_past_entries (config : Config) (lib : String → Option SteamID)
    (now tRoute : Int) (s : State) (id len : Option String) (self : SteamID) :
    (∀ u ∈ (UpdateUsers now s).users, ¬ u.expiresAt < now) ∧
    (handleRequest config lib ⟨Route.list, some config.key, id, len⟩ now tRoute s).1
      = ⟨200, Body.list true (UpdateUsers now s).users⟩ ∧
    (BlockUsers (some self) now s).2
      = (UpdateUsers now s).users.map (blockMessage s.currentVersion self) ∧
    (BlockUsers none now s).2 = [] := by
  refine ⟨?_, ?_, ?_, rfl⟩
  · intro u hu
    have := (mem_UpdateUsers.mp hu).2
    omega
  · rw [handleRequest_authorised]
    rfl
  · unfold BlockUsers
    dsimp only
    split
    · rename_i h
      have h0 : (UpdateUsers now s).users = [] := List.length_eq_zero.mp (by omega)
      rw [h0]
      rfl
    · rfl

/-! ## C3: `/add` of an identity that is already present -/

/-- C3, counterexample. With capacity 1 and the registry holding the single live
entry `{id: 111111111, expiresAt: 60000}`, an authorised `/add` of `111111111` with
length 60 at clock 0 answers 507, not 200 `{success:false, expiresAt}`. -/
theorem add_existing_at_capacity_rejected :
    (handleRequest tinyConfig sampleFromIndividualAccountID
        (sampleRequest Route.add (some "111111111") (some "60")) 0 0
        (stateOf [⟨111111111, 60000⟩])).1.status = 507 ∧
    (handleRequest tinyConfig sampleFromIndividualAccountID
        (sampleRequest Route.add (some "111111111") (some "60")) 0 0
        (stateOf [⟨111111111, 60000⟩])).1 ≠ ⟨200, Body.added false 60000⟩ := by
  decide

/-- C3, amended. When the registry holds fewer than `config.maxUsers` entries after
the eviction pass and contains a live entry `e` for the identity, an authorised
`/add` for that identity with a valid length answers 200 `{success:false, expiresAt}`
where `expiresAt` is the expiry stored in a live entry of that id (the first one; it
is `e` itself when ids are unique), and the registry after the request is the evicted
registry, which is the registry itself when no entry had expired. -/
theorem add_existing_below_capacity (config : Config) (lib : String → Option SteamID)
    (id len : String) (steamID : SteamID) (n : Int) (tEvict tRoute : Int) (s : State)
    (e : User) (hid : id ≠ "") (hlib : lib id = some steamID)
    (hvalid : steamID.isValidIndividual = true) (hlen : parseInt len = some n)
    (hpos : 0 < n) (hmax : n ≤ config.maxLength)
    (hroom : ((UpdateUsers tEvict s).users.length : Int) < config.maxUsers)
    (he : e ∈ s.users) (heid : e.id = steamID.accountid) (hlive : tEvict ≤ e.expiresAt) :
    ∃ u ∈ s.users, u.id = steamID.accountid ∧ tEvict ≤ u.expiresAt ∧
      (UniqueIds s.users → u = e) ∧
      handleRequest config lib ⟨Route.add, some config.key, some id, some len⟩ tEvict tRoute s
        = (⟨200, Body.added false u.expiresAt⟩, UpdateUsers tEvict s) ∧
      ((∀ x ∈ s.users, tEvict ≤ x.expiresAt) → UpdateUsers tEvict s = s) := by
  have hmem : e ∈ (UpdateUsers tEvict s).users := mem_UpdateUsers.mpr ⟨he, hlive⟩
  cases hfind : (UpdateUsers tEvict s).users.find? (fun u => decide (u.id = steamID.accountid)) with
  | none => exact absurd heid (find_none_fresh hfind e hmem)
  | some u =>
    have hu := mem_UpdateUsers.mp (List.mem_of_find?_eq_some hfind)
    have huid : u.id = steamID.accountid := by simpa using List.find?_some hfind
    refine ⟨u, hu.1, huid, hu.2, ?_, ?_, fun h => UpdateUsers_eq_self h⟩
    · intro huniq
      exact eq_of_UniqueIds huniq hu.1 he (huid.trans heid.symm)
    · rw [handleRequest_authorised]
      show getAdd config lib tRoute _ _ = _
      rw [getAdd_valid config lib tRoute Route.add (some config.key) id len steamID n _
        hid hlib hvalid hlen]
      rw [if_neg (by omega), if_neg (by omega), hfind]

/-- C3, amended: an instance. Capacity 10, registry `[{id: 111111111, expiresAt: 61000}]`,
`/add` of the same id with length 30 at clock 2000. -/
theorem add_existing_below_capacity_witness :
    ∃ u ∈ (stateOf [⟨111111111, 61000⟩]).users, u.id = 111111111 ∧ (2000 : Int) ≤ u.expiresAt ∧
      (UniqueIds (stateOf [⟨111111111, 61000⟩]).users → u = ⟨111111111, 61000⟩) ∧
      handleRequest sampleConfig sampleFromIndividualAccountID
          ⟨Route.add, some sampleConfig.key, some "111111111", some "30"⟩ 2000 2000
          (stateOf [⟨111111111, 61000⟩])
        = (⟨200, Body.added false u.expiresAt⟩, UpdateUsers 2000 (stateOf [⟨111111111, 61000⟩])) ∧
      ((∀ x ∈ (stateOf [⟨111111111, 61000⟩]).users, (2000 : Int) ≤ x.expiresAt) →
        UpdateUsers 2000 (stateOf [⟨111111111, 61000⟩]) = stateOf [⟨111111111, 61000⟩]) :=
  add_existing_below_capacity sampleConfig sampleFromIndividualAccountID "111111111" "30"
    ⟨111111111, true⟩ 30 2000 2000 (stateOf [⟨111111111, 61000⟩]) ⟨111111111, 61000⟩
    (by decide) (by decide) rfl (by decide) (by decide) (by decide) (by decide)
    (by decide) rfl (by decide)

/-! ## C4: capacity -/

/-- C4. When the registry holds at least `config.maxUsers` entries after the eviction
pass, an authorised `/add` with a valid individual identity (in the registry or not)
and a valid length answers 507, and the state after the request is the state right
after that eviction pass. -/
theorem add_at_capacity (config : Config) (lib : String → Option SteamID)
    (id len : String) (steamID : SteamID) (n : Int) (tEvict tRoute : Int) (s : State)
    (hid : id ≠ "") (hlib : lib id = some steamID)
    (hvalid : steamID.isValidIndividual = true) (hlen : parseInt len = some n)
    (hpos : 0 < n) (hmax : n ≤ config.maxLength)
    (hfull : config.maxUsers ≤ ((UpdateUsers tEvict s).users.length : Int)) :
    handleRequest config lib ⟨Route.add, some config.key, some id, some len⟩ tEvict tRoute s
      = (⟨507, Body.error ("Too many users are on the list, maximum "
          ++ toString config.maxUsers)⟩, UpdateUsers tEvict s) := by
  rw [handleRequest_authorised]
  show getAdd config lib tRoute _ _ = _
  rw [getAdd_valid config lib tRoute Route.add (some config.key) id len steamID n _
    hid hlib hvalid hlen]
  rw [if_neg (by omega), if_pos (by omega)]

/-- C4: an instance. Capacity 1, registry `[{id: 5, expiresAt: 9000}]`, `/add` of the
fresh id 111111111 with length 60 at clock 1000. -/
theorem add_at_capacity_witness :
    handleRequest tinyConfig sampleFromIndividualAccountID
        ⟨Route.add, some tinyConfig.key, some "111111111", some "60"⟩ 1000 1000
        (stateOf [⟨5, 9000⟩])
      = (⟨507, Body.error ("Too many users are on the list, maximum "
          ++ toString tinyConfig.maxUsers)⟩, UpdateUsers 1000 (stateOf [⟨5, 9000⟩])) :=
  add_at_capacity tinyConfig sampleFromIndividualAccountID "111111111" "60"
    ⟨111111111, true⟩ 60 1000 1000 (stateOf [⟨5, 9000⟩])
    (by decide) (by decide) rfl (by decide) (by decide) (by decide) (by decide)

/-- C5: an instance. Capacity 10 and the run made of one successful `/add`. -/
theorem registry_bounded_witness :
    (((run sampleConfig sampleFromIndividualAccountID
        [Event.request (sampleRequest Route.add (some "111111111") (some "60")) 1000 1000]
      ).users.length : Nat) : Int) ≤ sampleConfig.maxUsers :=
  registry_bounded sampleConfig sampleFromIndividualAccountID _ (by decide)

/-! ## C6: a successful `/add` -/

/-- C6. For a valid individual identity absent from the evicted registry, a length
with `0 < n <= config.maxLength` and an evicted registry with fewer than
`config.maxUsers` entries, an authorised `/add` whose handler reads the clock `tRoute`
answers 200 `{success:true, expiresAt: tRoute + 1000*n}` and appends exactly the entry
`{id, expiresAt: tRoute + 1000*n}` at the end of the evicted registry; a following
authorised `/list` whose eviction pass runs at any `t <= tRoute + 1000*n` (in
particular at the same clock reading) answers the registry, in which exactly one
entry has that id, and it has that `expiresAt`. -/
theorem add_success (config : Config) (lib : String → Option SteamID)
    (id len : String) (steamID : SteamID) (n : Int) (tEvict tRoute t tRoute2 : Int)
    (s : State) (id2 len2 : Option String)
    (hid : id ≠ "") (hlib : lib id = some steamID)
    (hvalid : steamID.isValidIndividual = true) (hlen : parseInt len = some n)
    (hpos : 0 < n) (hmax : n ≤ config.maxLength)
    (hfresh : ∀ u ∈ (UpdateUsers tEvict s).users, u.id ≠ steamID.accountid)
    (hroom : ((UpdateUsers tEvict s).users.length : Int) < config.maxUsers)
    (ht : t ≤ tRoute + 1000 * n) :
    handleRequest config lib ⟨Route.add, some config.key, some id, some len⟩ tEvict tRoute s
      = (⟨200, Body.added true (tRoute + 1000 * n)⟩,
          { UpdateUsers tEvict s with
            users := (UpdateUsers tEvict s).users ++ [⟨steamID.accountid, tRoute + 1000 * n⟩] }) ∧
    (handleRequest config lib ⟨Route.list, some config.key, id2, len2⟩ t tRoute2
        (handleRequest config lib ⟨Route.add, some config.key, some id, some len⟩
          tEvict tRoute s).2).1
      = ⟨200, Body.list true
          ((UpdateUsers t (UpdateUsers tEvict s)).users ++ [⟨steamID.accountid, tRoute + 1000 * n⟩])⟩ ∧
    ((UpdateUsers t (UpdateUsers tEvict s)).users
        ++ [User.mk steamID.accountid (tRoute + 1000 * n)]).filter
        (fun u => decide (u.id = steamID.accountid))
      = [User.mk steamID.accountid (tRoute + 1000 * n)] := by
  have hadd : handleRequest config lib ⟨Route.add, some config.key, some id, some len⟩
      tEvict tRoute s
      = (⟨200, Body.added true (tRoute + 1000 * n)⟩,
          { UpdateUsers tEvict s with
            users := (UpdateUsers tEvict s).users ++ [⟨steamID.accountid, tRoute + 1000 * n⟩] }) := by
    have hnone : (UpdateUsers tEvict s).users.find? (fun u => decide (u.id = steamID.accountid))
        = none := List.find?_eq_none.mpr (fun u hu => by simpa using hfresh u hu)
    rw [handleRequest_authorised]
    show getAdd config lib tRoute _ _ = _
    rw [getAdd_valid config lib tRoute Route.add (some config.key) id len steamID n _
      hid hlib hvalid hlen]
    rw [if_neg (by omega), if_neg (by omega), hnone, mul_comm n 1000]
  refine ⟨hadd, ?_, ?_⟩
  · rw [hadd, handleRequest_authorised]
    show (⟨200, Body.list true _⟩ : Response) = _
    congr 2
    show List.filter _ (_ ++ [_]) = List.filter _ _ ++ [_]
    rw [List.filter_append]
    congr 1
    simp only [List.filter_cons, List.filter_nil]
    rw [if_pos (by simpa using ht)]
  · rw [List.filter_append]
    have hnil : (UpdateUsers t (UpdateUsers tEvict s)).users.filter
        (fun u => decide (u.id = steamID.accountid)) = [] := by
      rw [List.filter_eq_nil_iff]
      intro u hu
      simpa using hfresh u (mem_UpdateUsers.mp hu).1
    rw [hnil]
    simp

/-- C6: the instance of the specification. Id 111111111, length 60, empty registry,
capacity 10, clock 1000: the answer carries `expiresAt = 1000 + 60000`. -/
theorem add_success_witness :
    handleRequest sampleConfig sampleFromIndividualAccountID
        ⟨Route.add, some sampleConfig.key, some "111111111", some "60"⟩ 1000 1000 State.initial
      = (⟨200, Body.added true (1000 + 1000 * 60)⟩,
          { UpdateUsers 1000 State.initial with
            users := (UpdateUsers 1000 State.initial).users ++ [⟨111111111, 1000 + 1000 * 60⟩] }) ∧
    (handleRequest sampleConfig sampleFromIndividualAccountID
        ⟨Route.list, some sampleConfig.key, none, none⟩ 1000 1000
        (handleRequest sampleConfig sampleFromIndividualAccountID
          ⟨Route.add, some sampleConfig.key, some "111111111", some "60"⟩
          1000 1000 State.initial).2).1
      = ⟨200, Body.list true
          ((UpdateUsers 1000 (UpdateUsers 1000 State.initial)).users
            ++ [⟨111111111, 1000 + 1000 * 60⟩])⟩ ∧
    ((UpdateUsers 1000 (UpdateUsers 1000 State.initial)).users
        ++ [User.mk 111111111 (1000 + 1000 * 60)]).filter
        (fun u => decide (u.id = 111111111))
      = [User.mk 111111111 (1000 + 1000 * 60)] :=
  add_success sampleConfig sampleFromIndividualAccountID "111111111" "60"
    ⟨111111111, true⟩ 60 1000 1000 1000 1000 State.initial none none
    (by decide) (by decide) rfl (by decide) (by decide) (by decide)
    (by decide) (by decide) (by decide)

/-! ## C7: validation of the length -/

/-- C7. For an authorised `/add` with a valid individual identity: when the `length`
parameter parses to an integer `n`, the answer is 400 if and only if `n <= 0` or
`n > config.maxLength`, whatever the registry holds; when it does not parse, or is
missing, the answer is 400; and a request answered 400 leaves the evicted registry as
it is. -/
theorem add_length_validation (config : Config) (lib : String → Option SteamID)
    (id len : String) (steamID : SteamID) (tEvict tRoute : Int) (s : State)
    (hid : id ≠ "") (hlib : lib id = some steamID)
    (hvalid : steamID.isValidIndividual = true) :
    (∀ n, parseInt len = some n →
      ((handleRequest config lib ⟨Route.add, some config.key, some id, some len⟩
          tEvict tRoute s).1.status = 400 ↔ (n ≤ 0 ∨ n > config.maxLength))) ∧
    (parseInt len = none →
      (handleRequest config lib ⟨Route.add, some config.key, some id, some len⟩
          tEvict tRoute s).1.status = 400) ∧
    (handleRequest config lib ⟨Route.add, some config.key, some id, none⟩
        tEvict tRoute s).1.status = 400 ∧
    ((handleRequest config lib ⟨Route.add, some config.key, some id, some len⟩
        tEvict tRoute s).1.status = 400 →
      (handleRequest config lib ⟨Route.add, some config.key, some id, some len⟩
        tEvict tRoute s).2 = UpdateUsers tEvict s) := by
  have hparsed : ∀ n, parseInt len = some n →
      ((handleRequest config lib ⟨Route.add, some config.key, some id, some len⟩
          tEvict tRoute s).1.status = 400 ↔ (n ≤ 0 ∨ n > config.maxLength)) ∧
      ((handleRequest config lib ⟨Route.add, some config.key, some id, some len⟩
          tEvict tRoute s).1.status = 400 →
        (handleRequest config lib ⟨Route.add, some config.key, some id, some len⟩
          tEvict tRoute s).2 = UpdateUsers tEvict s) := by
    intro n hlen
    rw [handleRequest_authorised]
    show ((getAdd config lib tRoute _ _).1.status = 400 ↔ _) ∧
      ((getAdd config lib tRoute _ _).1.status = 400 → (getAdd config lib tRoute _ _).2 = _)
    rw [getAdd_valid config lib tRoute Route.add (some config.key) id len steamID n _
      hid hlib hvalid hlen]
    by_cases hbad : n ≤ 0 ∨ n > config.maxLength
    · rw [if_pos hbad]
      exact ⟨⟨fun _ => hbad, fun _ => rfl⟩, fun _ => rfl⟩
    · rw [if_neg hbad]
      by_cases hcap : ((UpdateUsers tEvict s).users.length : Int) ≥ config.maxUsers
      · rw [if_pos hcap]
        exact ⟨⟨fun h => by simp at h, fun h => absurd h hbad⟩, fun h => by simp at h⟩
      · rw [if_neg hcap]
        split
        · exact ⟨⟨fun h => by simp at h, fun h => absurd h hbad⟩, fun h => by simp at h⟩
        · exact ⟨⟨fun h => by simp at h, fun h => absurd h hbad⟩, fun h => by simp at h⟩
  have hunparsed : parseInt len = none →
      handleRequest config lib ⟨Route.add, some config.key, some id, some len⟩ tEvict tRoute s
        = (⟨400, Body.error ("Input length is invalid, it must be between 1 and "
            ++ toString config.maxLength ++ " inclusive")⟩, UpdateUsers tEvict s) ∨
      handleRequest config lib ⟨Route.add, some config.key, some id, some len⟩ tEvict tRoute s
        = (⟨400, Body.error "Request is missing 'length' parameter"⟩, UpdateUsers tEvict s) := by
    intro hnone
    rw [handleRequest_authorised]
    show getAdd config lib tRoute _ _ = _ ∨ getAdd config lib tRoute _ _ = _
    unfold getAdd
    simp only [falsy_some_of_ne _ hid, paramString, hlib, hvalid, hnone]
    cases falsy (some len) with
    | true => exact Or.inr rfl
    | false => exact Or.inl rfl
  refine ⟨fun n hn => (hparsed n hn).1, ?_, ?_, ?_⟩
  · intro hnone
    rcases hunparsed hnone with h | h <;> rw [h]
  · rw [handleRequest_authorised]
    show (getAdd config lib tRoute _ _).1.status = 400
    have hmissing : falsy (none : Option String) = true := rfl
    unfold getAdd
    simp only [falsy_some_of_ne _ hid, hmissing]
    rfl
  · cases hp : parseInt len with
    | none =>
      intro _
      rcases hunparsed hp with h | h <;> rw [h]
    | some n => exact (hparsed n hp).2

/-- C7: the instance of the specification. `length=0` is answered 400, and so is an
unparsable or missing length. -/
theorem add_length_validation_witness :
    (∀ n, parseInt "0" = some n →
      ((handleRequest sampleConfig sampleFromIndividualAccountID
          ⟨Route.add, some sampleConfig.key, some "111111111", some "0"⟩
          1000 1000 State.initial).1.status = 400 ↔ (n ≤ 0 ∨ n > sampleConfig.maxLength))) ∧
    (parseInt "0" = none →
      (handleRequest sampleConfig sampleFromIndividualAccountID
          ⟨Route.add, some sampleConfig.key, some "111111111", some "0"⟩
          1000 1000 State.initial).1.status = 400) ∧
    (handleRequest sampleConfig sampleFromIndividualAccountID
        ⟨Route.add, some sampleConfig.key, some "111111111", none⟩
        1000 1000 State.initial).1.status = 400 ∧
    ((handleRequest sampleConfig sampleFromIndividualAccountID
        ⟨Route.add, some sampleConfig.key, some "111111111", some "0"⟩
        1000 1000 State.initial).1.status = 400 →
      (handleRequest sampleConfig sampleFromIndividualAccountID
        ⟨Route.add, some sampleConfig.key, some "111111111", some "0"⟩
        1000 1000 State.initial).2 = UpdateUsers 1000 State.initial) :=
  add_length_validation sampleConfig sampleFromIndividualAccountID "111111111" "0"
    ⟨111111111, true⟩ 1000 1000 State.initial (by decide) (by decide) rfl

/-! ## C8: `/remove` -/

/-- C8. For a registry with unique ids and a valid individual identity, an
authorised `/remove` answers 200 `{success:true}` if and only if an entry with that id
is in the registry after the eviction pass, and 200 `{success:false}` if and only if
none is; afterwards the registry is the evicted registry without the entries of that
id, the others in their original order, so no entry with that id remains; and when the
id was not present the state is the evicted state, which is the state before the
request when no entry had expired. -/
theorem remove_spec (config : Config) (lib : String → Option SteamID)
    (id : String) (len : Option String) (steamID : SteamID) (tEvict tRoute : Int) (s : State)
    (hid : id ≠ "") (hlib : lib id = some steamID)
    (hvalid : steamID.isValidIndividual = true) (huniq : UniqueIds s.users) :
    ((handleRequest config lib ⟨Route.remove, some config.key, some id, len⟩ tEvict tRoute s).1
        = ⟨200, Body.removed true⟩ ↔
      ∃ u ∈ (UpdateUsers tEvict s).users, u.id = steamID.accountid) ∧
    ((handleRequest config lib ⟨Route.remove, some config.key, some id, len⟩ tEvict tRoute s).1
        = ⟨200, Body.removed false⟩ ↔
      ∀ u ∈ (UpdateUsers tEvict s).users, u.id ≠ steamID.accountid) ∧
    (handleRequest config lib ⟨Route.remove, some config.key, some id, len⟩ tEvict tRoute s).2
      = { UpdateUsers tEvict s with
          users := (UpdateUsers tEvict s).users.filter
            (fun u => decide (u.id ≠ steamID.accountid)) } ∧
    (∀ u ∈ (handleRequest config lib ⟨Route.remove, some config.key, some id, len⟩
        tEvict tRoute s).2.users, u.id ≠ steamID.accountid) ∧
    ((∀ u ∈ (UpdateUsers tEvict s).users, u.id ≠ steamID.accountid) →
      (handleRequest config lib ⟨Route.remove, some config.key, some id, len⟩ tEvict tRoute s).2
        = UpdateUsers tEvict s) ∧
    ((∀ u ∈ s.users, tEvict ≤ u.expiresAt) → UpdateUsers tEvict s = s) := by
  have hE : UniqueIds (UpdateUsers tEvict s).users := UniqueIds_filter _ huniq
  have hreq : handleRequest config lib ⟨Route.remove, some config.key, some id, len⟩
      tEvict tRoute s
      = match (UpdateUsers tEvict s).users.findIdx?
          (fun u => decide (u.id = steamID.accountid)) with
        | none => (⟨200, Body.removed false⟩, UpdateUsers tEvict s)
        | some index => (⟨200, Body.removed true⟩,
            { UpdateUsers tEvict s with users := (UpdateUsers tEvict s).users.eraseIdx index }) := by
    rw [handleRequest_authorised]
    show getRemove lib _ _ = _
    rw [getRemove_valid lib Route.remove (some config.key) len id steamID _ hid hlib hvalid]
  rw [hreq]
  cases hfind : (UpdateUsers tEvict s).users.findIdx?
      (fun u => decide (u.id = steamID.accountid)) with
  | none =>
    have habsent : ∀ u ∈ (UpdateUsers tEvict s).users, u.id ≠ steamID.accountid := by
      intro u hu
      simpa using List.findIdx?_eq_none_iff.mp hfind u hu
    have hself : (UpdateUsers tEvict s).users.filter
        (fun u => decide (u.id ≠ steamID.accountid)) = (UpdateUsers tEvict s).users :=
      List.filter_eq_self.mpr (fun u hu => by simpa using habsent u hu)
    refine ⟨⟨fun h => by simp at h, fun ⟨u, hu, hid⟩ => absurd hid (habsent u hu)⟩,
      ⟨fun _ => habsent, fun _ => rfl⟩, ?_, habsent, fun _ => rfl,
      fun h => UpdateUsers_eq_self h⟩
    show UpdateUsers tEvict s = _
    rw [hself]
  | some index =>
    have herase := eraseIdx_findIdx steamID.accountid _ hE index hfind
    have hpresent : ∃ u ∈ (UpdateUsers tEvict s).users, u.id = steamID.accountid := by
      by_contra hno
      have hnone : (UpdateUsers tEvict s).users.findIdx?
          (fun u => decide (u.id = steamID.accountid)) = none := by
        rw [List.findIdx?_eq_none_iff]
        intro u hu
        simpa using fun hc => hno ⟨u, hu, hc⟩
      rw [hnone] at hfind
      cases hfind
    refine ⟨⟨fun _ => hpresent, fun _ => rfl⟩, ⟨fun h => by simp at h, ?_⟩, ?_, ?_, ?_,
      fun h => UpdateUsers_eq_self h⟩
    · intro habsent
      obtain ⟨u, hu, hid⟩ := hpresent
      exact absurd hid (habsent u hu)
    · show ({ UpdateUsers tEvict s with
        users := (UpdateUsers tEvict s).users.eraseIdx index } : State) = _
      rw [herase]
    · intro u hu
      have hu2 : u ∈ (UpdateUsers tEvict s).users.eraseIdx index := hu
      rw [herase] at hu2
      simpa using (List.mem_filter.mp hu2).2
    · intro habsent
      obtain ⟨u, hu, hid⟩ := hpresent
      exact absurd hid (habsent u hu)

/-- C8: an instance. Registry `[{1, 9000}, {111111111, 9000}, {3, 9000}]`, `/remove` of
`111111111` at clock 1000. -/
theorem remove_spec_witness :
    ((handleRequest sampleConfig sampleFromIndividualAccountID
        ⟨Route.remove, some sampleConfig.key, some "111111111", none⟩ 1000 1000
        (stateOf [⟨1, 9000⟩, ⟨111111111, 9000⟩, ⟨3, 9000⟩])).1
        = ⟨200, Body.removed true⟩ ↔
      ∃ u ∈ (UpdateUsers 1000 (stateOf [⟨1, 9000⟩, ⟨111111111, 9000⟩, ⟨3, 9000⟩])).users,
        u.id = 111111111) ∧
    (handleRequest sampleConfig sampleFromIndividualAccountID
        ⟨Route.remove, some sampleConfig.key, some "111111111", none⟩ 1000 1000
        (stateOf [⟨1, 9000⟩, ⟨111111111, 9000⟩, ⟨3, 9000⟩])).2
      = { UpdateUsers 1000 (stateOf [⟨1, 9000⟩, ⟨111111111, 9000⟩, ⟨3, 9000⟩]) with
          users := (UpdateUsers 1000
            (stateOf [⟨1, 9000⟩, ⟨111111111, 9000⟩, ⟨3, 9000⟩])).users.filter
            (fun u => decide (u.id ≠ 111111111)) } :=
  have h := remove_spec sampleConfig sampleFromIndividualAccountID "111111111" none
    ⟨111111111, true⟩ 1000 1000 (stateOf [⟨1, 9000⟩, ⟨111111111, 9000⟩, ⟨3, 9000⟩])
    (by decide) (by decide) rfl (by unfold UniqueIds; decide)
  ⟨h.1, h.2.2.1⟩

/-! ## C9: the shared-secret gate -/

/-- C9. A request of any route whose `key` parameter is missing or differs from
`config.key` is answered 401 with an error body and leaves the state exactly as it
was (no eviction pass, no route handler); a request whose key matches is answered by
its route handler run on the state the eviction pass produced. -/
theorem key_gate (config : Config) (lib : String → Option SteamID) (req : Request)
    (tEvict tRoute : Int) (s : State) :
    (req.key ≠ some config.key →
      handleRequest config lib req tEvict tRoute s
        = (⟨401, Body.error "Key mismatch, retrying will not help"⟩, s)) ∧
    (req.key = some config.key →
      handleRequest config lib req tEvict tRoute s
        = routeHandler config lib tRoute req (UpdateUsers tEvict s)) := by
  unfold handleRequest
  constructor
  · intro h
    rw [if_pos h]
  · intro h
    rw [if_neg (by simpa using h)]

/-- C9: an instance. With a wrong key the expired entry `{1, 5}` is still in the
registry after a `/list` at clock 1000; with the right key it is evicted before the
handler answers. -/
theorem key_gate_witness :
    handleRequest sampleConfig sampleFromIndividualAccountID
        ⟨Route.list, some "wrong", none, none⟩ 1000 1000 (stateOf [⟨1, 5⟩])
      = (⟨401, Body.error "Key mismatch, retrying will not help"⟩, stateOf [⟨1, 5⟩]) ∧
    handleRequest sampleConfig sampleFromIndividualAccountID
        ⟨Route.list, some "secret", none, none⟩ 1000 1000 (stateOf [⟨1, 5⟩])
      = routeHandler sampleConfig sampleFromIndividualAccountID 1000
          ⟨Route.list, some "secret", none, none⟩ (UpdateUsers 1000 (stateOf [⟨1, 5⟩])) :=
  ⟨(key_gate sampleConfig sampleFromIndividualAccountID
      ⟨Route.list, some "wrong", none, none⟩ 1000 1000 (stateOf [⟨1, 5⟩])).1 (by decide),
   (key_gate sampleConfig sampleFromIndividualAccountID
      ⟨Route.list, some "secret", none, none⟩ 1000 1000 (stateOf [⟨1, 5⟩])).2 (by decide)⟩

/-! ## C10: the dispatch tick -/

/-- C10. One `BlockUsers` tick leaves the evicted state; it sends nothing when the
own identity is not established or the evicted registry is empty; otherwise it sends
one MatchmakingStart message per remaining entry, in registry order, the message for
entry `u` carrying `client_version = currentVersion`, `game_type = 519` and
`account_ids = [self.accountid, u.id]`, so there are as many messages as live
entries and, under unique ids, exactly one message targets each live entry. -/
theorem blockUsers_tick (steamID : Option SteamID) (now : Int) (s : State) :
    (BlockUsers steamID now s).1 = UpdateUsers now s ∧
    ((steamID = none ∨ (UpdateUsers now s).users = []) → (BlockUsers steamID now s).2 = []) ∧
    (∀ self, steamID = some self →
      (BlockUsers steamID now s).2
        = (UpdateUsers now s).users.map (fun u =>
            GCMessage.mk 730 GCMsgType.k_EMsgGCCStrike15_v2_MatchmakingStart
              (GCPayload.CMsgGCCStrike15_v2_MatchmakingStart s.currentVersion 519
                [self.accountid, u.id])) ∧
      (BlockUsers steamID now s).2.length = (UpdateUsers now s).users.length ∧
      (UniqueIds s.users → ∀ u ∈ (UpdateUsers now s).users,
        ((BlockUsers steamID now s).2.filter
          (fun m => decide (m.target = some u.id))).length = 1)) := by
  have hmsgs : ∀ self, (BlockUsers (some self) now s).2
      = (UpdateUsers now s).users.map (blockMessage s.currentVersion self) := by
    intro self
    unfold BlockUsers
    dsimp only
    split
    · rename_i h
      have h0 : (UpdateUsers now s).users = [] := List.length_eq_zero.mp (by omega)
      rw [h0]
      rfl
    · rfl
  refine ⟨BlockUsers_state steamID now s, ?_, ?_⟩
  · rintro (h | h)
    · rw [h]
      rfl
    · cases steamID with
      | none => rfl
      | some self => rw [hmsgs, h]; rfl
  · intro self hself
    subst hself
    rw [hmsgs]
    refine ⟨rfl, List.length_map _ _, ?_⟩
    intro huniq u hu
    rw [List.filter_map, List.length_map]
    have hfun : ((fun m => decide (GCMessage.target m = some u.id)) ∘
        blockMessage s.currentVersion self) = (fun x => decide (x.id = u.id)) := by
      funext x
      simp [target_blockMessage]
    rw [hfun]
    exact filter_id_length_one (UniqueIds_filter _ huniq) hu

/-- C10: an instance. Registry `[{1, 9000}, {2, 5}, {3, 9000}]` at clock 1000 with own
account 7 and version 0: entry 2 is evicted and messages go to 1 and 3, in this order. -/
theorem blockUsers_tick_witness :
    (BlockUsers (some ⟨7, true⟩) 1000 (stateOf [⟨1, 9000⟩, ⟨2, 5⟩, ⟨3, 9000⟩])).2
      = (UpdateUsers 1000 (stateOf [⟨1, 9000⟩, ⟨2, 5⟩, ⟨3, 9000⟩])).users.map (fun u =>
          GCMessage.mk 730 GCMsgType.k_EMsgGCCStrike15_v2_MatchmakingStart
            (GCPayload.CMsgGCCStrike15_v2_MatchmakingStart
              (stateOf [⟨1, 9000⟩, ⟨2, 5⟩, ⟨3, 9000⟩]).currentVersion 519
              [(SteamID.mk 7 true).accountid, u.id])) ∧
    (BlockUsers (none : Option SteamID) 1000 (stateOf [⟨1, 9000⟩, ⟨2, 5⟩, ⟨3, 9000⟩])).2 = [] :=
  ⟨((blockUsers_tick (some ⟨7, true⟩) 1000 (stateOf [⟨1, 9000⟩, ⟨2, 5⟩, ⟨3, 9000⟩])).2.2
      ⟨7, true⟩ rfl).1,
   (blockUsers_tick none 1000 (stateOf [⟨1, 9000⟩, ⟨2, 5⟩, ⟨3, 9000⟩])).2.1 (Or.inl rfl)⟩

/-! ## Auxiliary facts about the session and the send loop -/

theorem UpdateUsers_twice {now1 now2 : Int} (s : State) (h : now1 ≤ now2) :
    UpdateUsers now2 (UpdateUsers now1 s) = UpdateUsers now2 s := by
  unfold UpdateUsers
  simp only [List.filter_filter]
  congr 1
  apply List.filter_congr
  intro u _
  by_cases h2 : u.expiresAt ≥ now2
  · have h1 : u.expiresAt ≥ now1 := by omega
    simp [h1, h2]
  · simp [h2]

/-- The send loop when the first throwing call is call `k`: the sends of the first
`k + 1` messages were attempted, and the loop was left by the exception. -/
theorem sendLoop_first_failure (fails : Nat → Bool) (ms : List GCMessage) (i k : Nat)
    (hk : k < ms.length) (hfail : fails (i + k) = true)
    (hbefore : ∀ j, j < k → fails (i + j) = false) :
    sendLoop fails i ms = (ms.take (k + 1), true) := by
  induction ms generalizing i k with
  | nil => simp at hk
  | cons m rest ih =>
    cases k with
    | zero =>
      have h0 : fails i = true := by simpa using hfail
      simp [sendLoop, h0]
    | succ k =>
      have h0 : fails i = false := by simpa using hbefore 0 (Nat.succ_pos k)
      have hrest := ih (i + 1) k (by simpa using hk)
        (by rw [← hfail]; congr 1; omega)
        (fun j hj => by rw [← hbefore (j + 1) (by omega)]; congr 1; omega)
      simp [sendLoop, h0, hrest]

/-- The send loop when no call throws: every send was attempted, in order. -/
theorem sendLoop_no_failure (fails : Nat → Bool) (ms : List GCMessage) (i : Nat)
    (hnone : ∀ j, j < ms.length → fails (i + j) = false) :
    sendLoop fails i ms = (ms, false) := by
  induction ms generalizing i with
  | nil => rfl
  | cons m rest ih =>
    have h0 : fails i = false := by simpa using hnone 0 (by simp)
    have hrest := ih (i + 1)
      (fun j hj => by rw [← hnone (j + 1) (by simpa using hj)]; congr 1; omega)
    simp [sendLoop, h0, hrest]

/-! ## C19: eviction keeps the live entries -/

/-- C19. `UpdateUsers` at `now` retains every entry whose `expiresAt` is greater than
`now`, unchanged and in the original order (the entries with `expiresAt > now` of the
result are those of the input, as lists), its result is a sublist of the input, a
second run at the same `now` changes nothing, and for `now1 <= now2` evicting at `now1`
and then at `now2` gives the state that evicting once at `now2` gives. -/
theorem eviction_keeps_live_entries (now now1 now2 : Int) (s : State) :
    (∀ u ∈ s.users, now < u.expiresAt → u ∈ (UpdateUsers now s).users) ∧
    (UpdateUsers now s).users.filter (fun u => decide (now < u.expiresAt))
      = s.users.filter (fun u => decide (now < u.expiresAt)) ∧
    (UpdateUsers now s).users.Sublist s.users ∧
    UpdateUsers now (UpdateUsers now s) = UpdateUsers now s ∧
    (now1 ≤ now2 → UpdateUsers now2 (UpdateUsers now1 s) = UpdateUsers now2 s) := by
  refine ⟨?_, ?_, List.filter_sublist s.users, UpdateUsers_twice s (le_refl now),
    fun h => UpdateUsers_twice s h⟩
  · intro u hu hlive
    exact mem_UpdateUsers.mpr ⟨hu, by omega⟩
  · rw [UpdateUsers_users, List.filter_filter]
    apply List.filter_congr
    intro u _
    by_cases h : now < u.expiresAt
    · have h1 : u.expiresAt ≥ now := by omega
      simp [h, h1]
    · simp [h]

/-- C19: an instance. Registry `[{1, 10}, {2, 3}, {3, 7}]` evicted at 5 and then at 8. -/
theorem eviction_keeps_live_entries_witness :
    UpdateUsers 8 (UpdateUsers 5 (stateOf [⟨1, 10⟩, ⟨2, 3⟩, ⟨3, 7⟩]))
      = UpdateUsers 8 (stateOf [⟨1, 10⟩, ⟨2, 3⟩, ⟨3, 7⟩]) :=
  (eviction_keeps_live_entries 5 5 8 (stateOf [⟨1, 10⟩, ⟨2, 3⟩, ⟨3, 7⟩])).2.2.2.2 (by decide)

/-! ## C17: a send that throws -/

/-- C17, counterexample. Registry `[{1, 10}, {2, 10}]`, own account 7, clock 0, and the
first call of `sendToGC` throws: the send for entry 1 is the only one attempted, the
tick is left by the exception and no send is attempted for entry 2. -/
theorem send_failure_aborts_tick :
    BlockUsersFallible (fun i => decide (i = 0)) (some ⟨7, true⟩) 0 (stateOf [⟨1, 10⟩, ⟨2, 10⟩])
      = (UpdateUsers 0 (stateOf [⟨1, 10⟩, ⟨2, 10⟩]), [blockMessage 0 ⟨7, true⟩ ⟨1, 10⟩], true) ∧
    blockMessage 0 ⟨7, true⟩ ⟨2, 10⟩ ∉
      (BlockUsersFallible (fun i => decide (i = 0)) (some ⟨7, true⟩) 0
        (stateOf [⟨1, 10⟩, ⟨2, 10⟩])).2.1 := by
  decide

/-- C17, amended. When the send for entry number `k` (from 0) is the first that throws
during a `BlockUsers` tick, the sends attempted in the tick are those for the entries
up to and including `k`, once each and in registry order, the tick is left by the
exception and no send is attempted for the entries after `k`; when no send throws, a
send is attempted once for every live entry, in registry order. -/
theorem send_failure_attempts (fails : Nat → Bool) (self : SteamID) (now : Int) (s : State)
    (k : Nat) :
    (k < (UpdateUsers now s).users.length → fails k = true →
      (∀ j, j < k → fails j = false) →
      BlockUsersFallible fails (some self) now s
        = (UpdateUsers now s,
            ((UpdateUsers now s).users.take (k + 1)).map (blockMessage s.currentVersion self),
            true)) ∧
    ((∀ j, j < (UpdateUsers now s).users.length → fails j = false) →
      BlockUsersFallible fails (some self) now s
        = (UpdateUsers now s,
            (UpdateUsers now s).users.map (blockMessage s.currentVersion self), false)) := by
  constructor
  · intro hk hfail hbefore
    unfold BlockUsersFallible
    dsimp only
    rw [if_neg (by omega)]
    rw [sendLoop_first_failure fails _ 0 k (by simpa using hk) (by simpa using hfail)
      (fun j hj => by simpa using hbefore j hj)]
    rw [List.map_take]
    rfl
  · intro hnone
    unfold BlockUsersFallible
    dsimp only
    split
    · rename_i h
      have h0 : (UpdateUsers now s).users = [] := List.length_eq_zero.mp (by omega)
      rw [h0]
      rfl
    · rw [sendLoop_no_failure fails _ 0 (fun j hj => by simpa using hnone j (by simpa using hj))]
      rfl

/-- C17, amended: an instance. Three live entries and the second send throws. -/
theorem send_failure_attempts_witness :
    BlockUsersFallible (fun i => decide (i = 1)) (some ⟨7, true⟩) 0
        (stateOf [⟨1, 10⟩, ⟨2, 10⟩, ⟨3, 10⟩])
      = (UpdateUsers 0 (stateOf [⟨1, 10⟩, ⟨2, 10⟩, ⟨3, 10⟩]),
          ((UpdateUsers 0 (stateOf [⟨1, 10⟩, ⟨2, 10⟩, ⟨3, 10⟩])).users.take (1 + 1)).map
            (blockMessage (stateOf [⟨1, 10⟩, ⟨2, 10⟩, ⟨3, 10⟩]).currentVersion ⟨7, true⟩),
          true) :=
  (send_failure_attempts (fun i => decide (i = 1)) ⟨7, true⟩ 0
      (stateOf [⟨1, 10⟩, ⟨2, 10⟩, ⟨3, 10⟩]) 1).1 (by decide) (by decide)
    (fun j hj => by
      have h0 : j = 0 := by omega
      subst h0
      decide)

/-! ## Auxiliary facts about the intervals -/

theorem mem_clearInterval {handle : Option Nat} {rt : Runtime} {t : Interval} :
    t ∈ (clearInterval handle rt).intervals ↔ t ∈ rt.intervals ∧ some t.handle ≠ handle := by
  unfold clearInterval
  simp

theorem clearInterval_sublist (handle : Option Nat) (rt : Runtime) :
    (clearInterval handle rt).intervals.Sublist rt.intervals :=
  List.filter_sublist rt.intervals

/-- Clearing the stored handle of a function leaves no live interval calling it. -/
theorem no_live_after_clear {rt : Runtime} (hown : TimersOwned rt) (callback : Callback)
    {t : Interval} (ht : t ∈ (clearInterval (storedHandle rt.vars callback) rt).intervals) :
    t.callback ≠ callback := by
  intro hc
  have hmem := mem_clearInterval.mp ht
  have hstored := hown.2.2 t hmem.1
  rw [hc] at hstored
  exact hmem.2 hstored.symm

/-- Ownership survives dropping live intervals while the stored handles stay. -/
theorem TimersOwned_sublist {rt : Runtime} (hown : TimersOwned rt) (kept : List Interval)
    (hsub : kept.Sublist rt.intervals) (vars : State) (pending : Nat)
    (hvars : ∀ c, storedHandle vars c = storedHandle rt.vars c) :
    TimersOwned { vars := vars, intervals := kept, nextHandle := rt.nextHandle,
                  pendingLogOn := pending } := by
  refine ⟨fun t ht => hown.1 t (hsub.subset ht), ?_, fun t ht => ?_⟩
  · exact List.Nodup.sublist (hsub.map Interval.handle) hown.2.1
  · show storedHandle vars t.callback = some t.handle
    rw [hvars]
    exact hown.2.2 t (hsub.subset ht)

/-- Ownership survives starting an interval for a function none of whose intervals is
live, and storing the fresh handle in its variable. -/
theorem TimersOwned_restart {rt : Runtime} (hown : TimersOwned rt) (kept : List Interval)
    (hsub : kept.Sublist rt.intervals) (callback : Callback) (delay : Nat) (vars : State)
    (pending : Nat) (hnone : ∀ t ∈ kept, t.callback ≠ callback)
    (hstored : storedHandle vars callback = some rt.nextHandle)
    (hother : ∀ c, c ≠ callback → storedHandle vars c = storedHandle rt.vars c) :
    TimersOwned
      { vars := vars
        intervals := kept ++ [{ handle := rt.nextHandle, callback := callback, delay := delay }]
        nextHandle := rt.nextHandle + 1
        pendingLogOn := pending } := by
  refine ⟨fun t ht => ?_, ?_, fun t ht => ?_⟩
  · show t.handle < rt.nextHandle + 1
    rcases List.mem_append.mp ht with h | h
    · have := hown.1 t (hsub.subset h)
      omega
    · rw [List.mem_singleton] at h
      subst h
      exact Nat.lt_succ_self _
  · show ((kept ++ [_]).map Interval.handle).Nodup
    rw [List.map_append, List.nodup_append]
    refine ⟨List.Nodup.sublist (hsub.map Interval.handle) hown.2.1, List.nodup_singleton _, ?_⟩
    intro a ha hb
    rw [List.map_singleton, List.mem_singleton] at hb
    obtain ⟨t, ht, hta⟩ := List.mem_map.mp ha
    have := hown.1 t (hsub.subset ht)
    rw [hta, hb] at this
    exact absurd this (Nat.lt_irrefl _)
  · show storedHandle vars t.callback = some t.handle
    rcases List.mem_append.mp ht with h | h
    · rw [hother _ (hnone t h)]
      exact hown.2.2 t (hsub.subset h)
    · rw [List.mem_singleton] at h
      subst h
      exact hstored

theorem TimersOwned_initial : TimersOwned Runtime.initial := by
  refine ⟨fun _ h => ?_, List.nodup_nil, fun _ h => ?_⟩ <;> cases h

theorem loggedOnContinuation_owned {rt : Runtime} (hown : TimersOwned rt) :
    TimersOwned (loggedOnContinuation rt) := by
  have h := TimersOwned_restart hown (clearInterval rt.vars.connectInterval rt).intervals
    (clearInterval_sublist _ rt) Callback.ConnectToGC 1000
    { rt.vars with connectInterval := some rt.nextHandle } rt.pendingLogOn
    (fun t ht => no_live_after_clear hown Callback.ConnectToGC ht) rfl
    (fun c hc => by cases c <;> first | exact absurd rfl hc | rfl)
  exact h

theorem onLoggedOn_owned {rt : Runtime} (hown : TimersOwned rt) : TimersOwned (onLoggedOn rt) :=
  TimersOwned_sublist hown rt.intervals (List.Sublist.refl _) rt.vars (rt.pendingLogOn + 1)
    (fun _ => rfl)

theorem onLicenseSettled_owned {rt : Runtime} (hown : TimersOwned rt) :
    TimersOwned (onLicenseSettled rt) := by
  unfold onLicenseSettled
  split
  · exact hown
  · exact loggedOnContinuation_owned
      (TimersOwned_sublist hown rt.intervals (List.Sublist.refl _) rt.vars
        (rt.pendingLogOn - 1) (fun _ => rfl))

theorem onClientWelcome_owned {rt : Runtime} (hown : TimersOwned rt) (body : CMsgClientWelcome) :
    TimersOwned (onClientWelcome body rt).rt := by
  unfold onClientWelcome
  split
  · split
    · exact hown
    · rename_i global_stats _
      have hversion : TimersOwned
          { rt with vars := { rt.vars with currentVersion := global_stats.required_appid_version } } :=
        TimersOwned_sublist hown rt.intervals (List.Sublist.refl _) _ rt.pendingLogOn
          (fun c => by cases c <;> rfl)
      have h := TimersOwned_restart hversion
        (clearInterval rt.vars.blockInterval (clearInterval rt.vars.connectInterval
          { rt with vars := { rt.vars with
            currentVersion := global_stats.required_appid_version } })).intervals
        ((clearInterval_sublist _ _).trans (clearInterval_sublist _ _))
        Callback.BlockUsers 2500
        { rt.vars with currentVersion := global_stats.required_appid_version,
                       blockInterval := some rt.nextHandle }
        rt.pendingLogOn
        (fun t ht => by
          have hmem := mem_clearInterval.mp ht
          have hmem2 := mem_clearInterval.mp hmem.1
          intro hc
          have hstored := hown.2.2 t hmem2.1
          rw [hc] at hstored
          exact hmem.2 hstored.symm)
        rfl
        (fun c hc => by cases c <;> first | exact absurd rfl hc | rfl)
      exact h
  · exact hown

theorem onConnectionStatus_owned {rt : Runtime} (hown : TimersOwned rt)
    (body : CMsgConnectionStatus) : TimersOwned (onConnectionStatus body rt).rt := by
  unfold onConnectionStatus
  split
  · have h := TimersOwned_restart hown
      (clearInterval rt.vars.connectInterval (clearInterval rt.vars.blockInterval rt)).intervals
      ((clearInterval_sublist _ _).trans (clearInterval_sublist _ _))
      Callback.ConnectToGC 1000
      { rt.vars with connectInterval := some rt.nextHandle }
      rt.pendingLogOn
      (fun t ht => by
        have hmem := mem_clearInterval.mp ht
        have hmem2 := mem_clearInterval.mp hmem.1
        intro hc
        have hstored := hown.2.2 t hmem2.1
        rw [hc] at hstored
        exact hmem.2 hstored.symm)
      rfl
      (fun c hc => by cases c <;> first | exact absurd rfl hc | rfl)
    exact h
  · exact hown

theorem onReceivedFromGC_owned {rt : Runtime} (hown : TimersOwned rt) (appID : Nat)
    (msg : GCReceived) : TimersOwned (onReceivedFromGC appID msg rt).rt := by
  unfold onReceivedFromGC
  split
  · exact hown
  · split
    · exact onClientWelcome_owned hown _
    · exact onConnectionStatus_owned hown _
    · exact hown

theorem onDisconnected_owned {rt : Runtime} (hown : TimersOwned rt) :
    TimersOwned (onDisconnected rt) :=
  TimersOwned_sublist hown _ ((clearInterval_sublist _ _).trans (clearInterval_sublist _ _))
    rt.vars rt.pendingLogOn (fun _ => rfl)

/-- After `disconnected` no interval is live, when every live interval was owned. -/
theorem onDisconnected_intervals {rt : Runtime} (hown : TimersOwned rt) :
    (onDisconnected rt).intervals = [] := by
  rw [List.eq_nil_iff_forall_not_mem]
  intro t ht
  have hmem := mem_clearInterval.mp ht
  have hmem2 := mem_clearInterval.mp hmem.1
  have hstored := hown.2.2 t hmem2.1
  cases hc : t.callback with
  | ConnectToGC =>
    rw [hc] at hstored
    exact hmem2.2 hstored.symm
  | BlockUsers =>
    rw [hc] at hstored
    exact hmem.2 hstored.symm

/-- A request changes neither the timer variables nor the learned version. -/
theorem handleRequest_session (config : Config) (lib : String → Option SteamID)
    (req : Request) (tEvict tRoute : Int) (s : State) :
    (handleRequest config lib req tEvict tRoute s).2.connectInterval = s.connectInterval ∧
    (handleRequest config lib req tEvict tRoute s).2.blockInterval = s.blockInterval ∧
    (handleRequest config lib req tEvict tRoute s).2.currentVersion = s.currentVersion := by
  unfold handleRequest
  split
  · exact ⟨rfl, rfl, rfl⟩
  · unfold routeHandler
    split
    · exact ⟨rfl, rfl, rfl⟩
    · rcases getAdd_users config lib tRoute req (UpdateUsers tEvict s) with h | ⟨u, _, _, h⟩
        <;> rw [h] <;> exact ⟨rfl, rfl, rfl⟩
    · rcases getRemove_users lib req (UpdateUsers tEvict s) with h | ⟨i, h⟩
        <;> rw [h] <;> exact ⟨rfl, rfl, rfl⟩
    · exact ⟨rfl, rfl, rfl⟩

theorem step_owned (config : Config) (lib : String → Option SteamID) (rt : Runtime)
    (e : ProgramEvent) (hown : TimersOwned rt) : TimersOwned (Runtime.step config lib rt e) := by
  cases e with
  | loggedOn => exact onLoggedOn_owned hown
  | licenseSettled => exact onLicenseSettled_owned hown
  | receivedFromGC appID msg => exact onReceivedFromGC_owned hown appID msg
  | disconnected => exact onDisconnected_owned hown
  | connectTick => exact hown
  | blockTick steamID now =>
    refine TimersOwned_sublist hown rt.intervals (List.Sublist.refl _) _ _ (fun c => ?_)
    rw [BlockUsers_state]
    cases c <;> rfl
  | request req tEvict tRoute =>
    refine TimersOwned_sublist hown rt.intervals (List.Sublist.refl _) _ _ (fun c => ?_)
    have h := handleRequest_session config lib req tEvict tRoute rt.vars
    cases c
    · exact h.1
    · exact h.2.1

theorem runFrom_owned (config : Config) (lib : String → Option SteamID)
    (events : List ProgramEvent) (rt : Runtime) (hown : TimersOwned rt) :
    TimersOwned (Runtime.runFrom config lib rt events) := by
  induction events generalizing rt with
  | nil => exact hown
  | cons e es ih => exact ih _ (step_owned config lib rt e hown)

theorem runFrom_append (config : Config) (lib : String → Option SteamID) (rt : Runtime)
    (events later : List ProgramEvent) :
    Runtime.runFrom config lib rt (events ++ later)
      = Runtime.runFrom config lib (Runtime.runFrom config lib rt events) later := by
  unfold Runtime.runFrom
  rw [List.foldl_append]

/-- Under ownership at most one live interval calls a given function. -/
theorem live_length_le_one {rt : Runtime} (hown : TimersOwned rt) (callback : Callback) :
    (rt.live callback).length ≤ 1 := by
  have hsub : (rt.live callback).Sublist rt.intervals := List.filter_sublist rt.intervals
  have hnodup : ((rt.live callback).map Interval.handle).Nodup :=
    List.Nodup.sublist (hsub.map Interval.handle) hown.2.1
  have hsame : ∀ t ∈ rt.live callback, storedHandle rt.vars callback = some t.handle := by
    intro t ht
    have hmem := List.mem_filter.mp ht
    have hc : t.callback = callback := by simpa using hmem.2
    rw [← hc]
    exact hown.2.2 t hmem.1
  match hl : rt.live callback with
  | [] => simp
  | [_] => simp
  | a :: b :: rest =>
    rw [hl] at hnodup hsame
    have ha := hsame a (by simp)
    have hb := hsame b (by simp)
    have hab : a.handle = b.handle := Option.some.inj (ha.symm.trans hb)
    simp [hab] at hnodup

/-! ## C18: no orphaned or duplicated timers -/

/-- C18, the code at the failing input, and what holds. After the events `loggedOn`
and `disconnected` no interval is live while the `loggedOn` handler is still suspended
at line 165; once the promise settles, lines 172-173 run and the hello-attempt interval
they start is live, although no `loggedOn` followed the `disconnected` event. In every
runtime reached by any sequence of events, at most one hello-attempt interval and at
most one block-dispatch interval are live, every live interval is the one whose handle
is stored in `connectInterval` or `blockInterval` respectively, and when the
`disconnected` handler returns no interval is live. -/
theorem hello_interval_after_disconnect (config : Config) (lib : String → Option SteamID)
    (events : List ProgramEvent) :
    (Runtime.run config lib
      [ProgramEvent.loggedOn, ProgramEvent.disconnected]).intervals = [] ∧
    (Runtime.run config lib
      [ProgramEvent.loggedOn, ProgramEvent.disconnected, ProgramEvent.licenseSettled]).intervals
      = [⟨0, Callback.ConnectToGC, 1000⟩] ∧
    ((Runtime.run config lib events).live Callback.ConnectToGC).length ≤ 1 ∧
    ((Runtime.run config lib events).live Callback.BlockUsers).length ≤ 1 ∧
    (∀ t ∈ (Runtime.run config lib events).intervals,
      storedHandle (Runtime.run config lib events).vars t.callback = some t.handle) ∧
    (Runtime.run config lib (events ++ [ProgramEvent.disconnected])).intervals = [] := by
  have hown : TimersOwned (Runtime.run config lib events) :=
    runFrom_owned config lib events Runtime.initial TimersOwned_initial
  refine ⟨rfl, rfl, live_length_le_one hown _, live_length_le_one hown _, hown.2.2, ?_⟩
  unfold Runtime.run
  rw [runFrom_append]
  exact onDisconnected_intervals hown

/-! ## Auxiliary facts about the handlers of coordinator messages -/

theorem live_eq_nil_iff {rt : Runtime} {callback : Callback} :
    rt.live callback = [] ↔ ∀ t ∈ rt.intervals, t.callback ≠ callback := by
  unfold Runtime.live
  rw [List.filter_eq_nil_iff]
  constructor
  · intro h t ht
    simpa using h t ht
  · intro h t ht
    simpa using h t ht

theorem onConnectionStatus_other (status : GCConnectionStatus) (rt : Runtime)
    (h : status ≠ GCConnectionStatus.GCConnectionStatus_HAVE_SESSION) :
    onConnectionStatus ⟨status⟩ rt =
      { rt :=
          { vars := { rt.vars with connectInterval := some rt.nextHandle }
            intervals :=
              (clearInterval rt.vars.connectInterval
                (clearInterval rt.vars.blockInterval rt)).intervals
              ++ [{ handle := rt.nextHandle, callback := Callback.ConnectToGC, delay := 1000 }]
            nextHandle := rt.nextHandle + 1
            pendingLogOn := rt.pendingLogOn }
        threw := false } := by
  unfold onConnectionStatus
  rw [if_pos h]
  rfl

theorem onClientWelcome_version (version : Int) (rt : Runtime) :
    onClientWelcome { game_data2 := some { global_stats := some ⟨version⟩ } } rt =
      { rt :=
          { vars := { rt.vars with currentVersion := version, blockInterval := some rt.nextHandle }
            intervals :=
              (clearInterval rt.vars.blockInterval
                (clearInterval rt.vars.connectInterval rt)).intervals
              ++ [{ handle := rt.nextHandle, callback := Callback.BlockUsers, delay := 2500 }]
            nextHandle := rt.nextHandle + 1
            pendingLogOn := rt.pendingLogOn }
        threw := false } :=
  rfl

/-- An event that is not a welcome carrying a version changes the state as one of the
other handlers does: the learned version stays, and no block-dispatch interval
becomes live. -/
theorem step_without_version (config : Config) (lib : String → Option SteamID)
    (rt : Runtime) (e : ProgramEvent) (he : e.carriesVersion = false) :
    (Runtime.step config lib rt e).vars.currentVersion = rt.vars.currentVersion ∧
    (rt.live Callback.BlockUsers = [] →
      (Runtime.step config lib rt e).live Callback.BlockUsers = []) := by
  have hkeep : ∀ (kept : List Interval) (vars : State) (next : Nat) (fresh : Nat)
      (pending : Nat),
      kept.Sublist rt.intervals → rt.live Callback.BlockUsers = [] →
      Runtime.live { vars := vars
                     intervals := kept ++ [{ handle := fresh, callback := Callback.ConnectToGC,
                                             delay := 1000 }]
                     nextHandle := next
                     pendingLogOn := pending } Callback.BlockUsers = [] := by
    intro kept vars next fresh pending hsub hnone
    rw [live_eq_nil_iff] at hnone ⊢
    intro t ht
    rcases List.mem_append.mp ht with h | h
    · exact hnone t (hsub.subset h)
    · rw [List.mem_singleton] at h
      subst h
      intro hc
      cases hc
  have hsubset : ∀ (kept : List Interval) (vars : State) (next : Nat) (pending : Nat),
      kept.Sublist rt.intervals → rt.live Callback.BlockUsers = [] →
      Runtime.live { vars := vars, intervals := kept, nextHandle := next,
                     pendingLogOn := pending } Callback.BlockUsers = [] := by
    intro kept vars next pending hsub hnone
    rw [live_eq_nil_iff] at hnone ⊢
    exact fun t ht => hnone t (hsub.subset ht)
  cases e with
  | loggedOn => exact ⟨rfl, hsubset _ _ _ _ (List.Sublist.refl _)⟩
  | licenseSettled =>
    show (onLicenseSettled rt).vars.currentVersion = _ ∧
      (_ → (onLicenseSettled rt).live Callback.BlockUsers = [])
    unfold onLicenseSettled
    split
    · exact ⟨rfl, id⟩
    · exact ⟨rfl, hkeep _ _ _ _ _ (clearInterval_sublist _ _)⟩
  | disconnected =>
    exact ⟨rfl, hsubset _ _ _ _ ((clearInterval_sublist _ _).trans (clearInterval_sublist _ _))⟩
  | connectTick => exact ⟨rfl, id⟩
  | blockTick steamID now =>
    refine ⟨?_, hsubset _ _ _ _ (List.Sublist.refl _)⟩
    show ((BlockUsers steamID now rt.vars).1).currentVersion = _
    rw [BlockUsers_state]
    rfl
  | request req tEvict tRoute =>
    exact ⟨(handleRequest_session config lib req tEvict tRoute rt.vars).2.2,
      hsubset _ _ _ _ (List.Sublist.refl _)⟩
  | receivedFromGC appID msg =>
    show (onReceivedFromGC appID msg rt).rt.vars.currentVersion = _ ∧
      (_ → (onReceivedFromGC appID msg rt).rt.live Callback.BlockUsers = [])
    unfold onReceivedFromGC
    split
    · exact ⟨rfl, id⟩
    · rename_i happ
      have h730 : appID = 730 := by simpa using happ
      subst h730
      cases msg with
      | otherMsgType => exact ⟨rfl, id⟩
      | k_EMsgGCClientConnectionStatus body =>
        show (onConnectionStatus body rt).rt.vars.currentVersion = _ ∧
          (_ → (onConnectionStatus body rt).rt.live Callback.BlockUsers = [])
        cases body with
        | mk status =>
          by_cases hs : status = GCConnectionStatus.GCConnectionStatus_HAVE_SESSION
          · subst hs
            exact ⟨rfl, id⟩
          · rw [onConnectionStatus_other status rt hs]
            exact ⟨rfl, hkeep _ _ _ _ _
              ((clearInterval_sublist _ _).trans (clearInterval_sublist _ _))⟩
      | k_EMsgGCClientWelcome body =>
        show (onClientWelcome body rt).rt.vars.currentVersion = _ ∧
          (_ → (onClientWelcome body rt).rt.live Callback.BlockUsers = [])
        cases body with
        | mk game_data2 =>
          cases game_data2 with
          | none => exact ⟨rfl, id⟩
          | some body2 =>
            cases body2 with
            | mk global_stats =>
              cases global_stats with
              | none => exact ⟨rfl, id⟩
              | some stats => simp [ProgramEvent.carriesVersion] at he

theorem runFrom_without_version (config : Config) (lib : String → Option SteamID)
    (later : List ProgramEvent) (rt : Runtime)
    (hlater : ∀ e ∈ later, e.carriesVersion = false) :
    (Runtime.runFrom config lib rt later).vars.currentVersion = rt.vars.currentVersion ∧
    (rt.live Callback.BlockUsers = [] →
      (Runtime.runFrom config lib rt later).live Callback.BlockUsers = []) := by
  induction later generalizing rt with
  | nil => exact ⟨rfl, id⟩
  | cons e es ih =>
    have hstep := step_without_version config lib rt e (hlater e (by simp))
    have hrest := ih (Runtime.step config lib rt e) (fun x hx => hlater x (by simp [hx]))
    exact ⟨hrest.1.trans hstep.1, fun h => hrest.2 (hstep.2 h)⟩

/-- Under ownership, a live interval of a function makes the count of its live
intervals exactly one. -/
theorem live_length_eq_one {rt : Runtime} (hown : TimersOwned rt) {t : Interval}
    (ht : t ∈ rt.intervals) : (rt.live t.callback).length = 1 := by
  have hle := live_length_le_one hown t.callback
  have hmem : t ∈ rt.live t.callback := List.mem_filter.mpr ⟨ht, by simp⟩
  have hpos : 0 < (rt.live t.callback).length := List.length_pos_of_mem hmem
  omega

/-- The messages of a tick with an established identity. -/
theorem messages_of_established_tick (self : SteamID) (now : Int) (s : State) :
    (BlockUsers (some self) now s).2
      = (UpdateUsers now s).users.map (blockMessage s.currentVersion self) := by
  unfold BlockUsers
  dsimp only
  split
  · rename_i h
    have h0 : (UpdateUsers now s).users = [] := List.length_eq_zero.mp (by omega)
    rw [h0]
    rfl
  · rfl

/-! ## C13: the connection-status transition -/

/-- C13. In a runtime whose live intervals are the stored ones (as in every reachable
runtime), handling an app-730 connection status other than HAVE_SESSION completes,
leaves no block-dispatch interval live and exactly one hello-attempt interval live,
and keeps the registry; no block-dispatch interval is live after any later events
either, until a welcome carrying a version is handled. A status HAVE_SESSION leaves the
whole runtime (timers, learned version, registry) as it was. -/
theorem connection_status_transition (config : Config) (lib : String → Option SteamID)
    (rt : Runtime) (status : GCConnectionStatus) (later : List ProgramEvent)
    (hown : TimersOwned rt) :
    (status ≠ GCConnectionStatus.GCConnectionStatus_HAVE_SESSION →
      (onReceivedFromGC 730 (GCReceived.k_EMsgGCClientConnectionStatus ⟨status⟩) rt).threw = false ∧
      (onReceivedFromGC 730 (GCReceived.k_EMsgGCClientConnectionStatus ⟨status⟩) rt).rt.live
        Callback.BlockUsers = [] ∧
      ((onReceivedFromGC 730 (GCReceived.k_EMsgGCClientConnectionStatus ⟨status⟩) rt).rt.live
        Callback.ConnectToGC).length = 1 ∧
      (onReceivedFromGC 730 (GCReceived.k_EMsgGCClientConnectionStatus ⟨status⟩) rt).rt.vars.users
        = rt.vars.users ∧
      ((∀ e ∈ later, e.carriesVersion = false) →
        (Runtime.runFrom config lib
          (onReceivedFromGC 730 (GCReceived.k_EMsgGCClientConnectionStatus ⟨status⟩) rt).rt
          later).live Callback.BlockUsers = [])) ∧
    onReceivedFromGC 730 (GCReceived.k_EMsgGCClientConnectionStatus
        ⟨GCConnectionStatus.GCConnectionStatus_HAVE_SESSION⟩) rt
      = { rt := rt, threw := false } := by
  refine ⟨fun hs => ?_, rfl⟩
  have hres : onReceivedFromGC 730 (GCReceived.k_EMsgGCClientConnectionStatus ⟨status⟩) rt
      = onConnectionStatus ⟨status⟩ rt := rfl
  have hownAfter : TimersOwned (onConnectionStatus ⟨status⟩ rt).rt :=
    onConnectionStatus_owned hown _
  rw [hres]
  have hnoBlock : (onConnectionStatus ⟨status⟩ rt).rt.live Callback.BlockUsers = [] := by
    rw [onConnectionStatus_other status rt hs, live_eq_nil_iff]
    intro t ht
    rcases List.mem_append.mp ht with h | h
    · exact no_live_after_clear hown Callback.BlockUsers (mem_clearInterval.mp h).1
    · rw [List.mem_singleton] at h
      subst h
      intro hc
      cases hc
  have hconnect : ((onConnectionStatus ⟨status⟩ rt).rt.live Callback.ConnectToGC).length = 1 := by
    have hmem : (⟨rt.nextHandle, Callback.ConnectToGC, 1000⟩ : Interval)
        ∈ (onConnectionStatus ⟨status⟩ rt).rt.intervals := by
      rw [onConnectionStatus_other status rt hs]
      exact List.mem_append.mpr (Or.inr (List.mem_singleton.mpr rfl))
    exact live_length_eq_one hownAfter hmem
  refine ⟨?_, hnoBlock, hconnect, ?_, fun hlater => ?_⟩
  · rw [onConnectionStatus_other status rt hs]
  · rw [onConnectionStatus_other status rt hs]
  · exact (runFrom_without_version config lib later _ hlater).2 hnoBlock

/-- C13: an instance. After a completed `loggedOn` and a welcome with version 5, a
connection status other than HAVE_SESSION is handled and then a completed `loggedOn`
and a block tick. -/
theorem connection_status_transition_witness :
    (onReceivedFromGC 730 (GCReceived.k_EMsgGCClientConnectionStatus
        ⟨GCConnectionStatus.otherStatus 2⟩)
      (Runtime.run sampleConfig sampleFromIndividualAccountID
        [ProgramEvent.loggedOn, ProgramEvent.licenseSettled, welcomeWith 5])).rt.live
          Callback.BlockUsers = [] ∧
    ((onReceivedFromGC 730 (GCReceived.k_EMsgGCClientConnectionStatus
        ⟨GCConnectionStatus.otherStatus 2⟩)
      (Runtime.run sampleConfig sampleFromIndividualAccountID
        [ProgramEvent.loggedOn, ProgramEvent.licenseSettled, welcomeWith 5])).rt.live
          Callback.ConnectToGC).length = 1 ∧
    (Runtime.runFrom sampleConfig sampleFromIndividualAccountID
      (onReceivedFromGC 730 (GCReceived.k_EMsgGCClientConnectionStatus
          ⟨GCConnectionStatus.otherStatus 2⟩)
        (Runtime.run sampleConfig sampleFromIndividualAccountID
          [ProgramEvent.loggedOn, ProgramEvent.licenseSettled, welcomeWith 5])).rt
      [ProgramEvent.loggedOn, ProgramEvent.licenseSettled,
        ProgramEvent.blockTick none 0]).live Callback.BlockUsers = [] :=
  have h := (connection_status_transition sampleConfig sampleFromIndividualAccountID
    (Runtime.run sampleConfig sampleFromIndividualAccountID
      [ProgramEvent.loggedOn, ProgramEvent.licenseSettled, welcomeWith 5])
    (GCConnectionStatus.otherStatus 2)
    [ProgramEvent.loggedOn, ProgramEvent.licenseSettled, ProgramEvent.blockTick none 0]
    (runFrom_owned sampleConfig sampleFromIndividualAccountID _ Runtime.initial
      TimersOwned_initial)).1 (by decide)
  ⟨h.2.1, h.2.2.1, h.2.2.2.2 (by decide)⟩

/-! ## C14: the welcome transition -/

/-- C14. In a runtime whose live intervals are the stored ones (as in every reachable
runtime), handling an app-730 welcome whose matchmaking payload carries the required
version `v` completes, sets the learned version to `v`, leaves no hello-attempt
interval live and exactly one block-dispatch interval live; and after any later events
none of which is a welcome carrying a version, every message a `BlockUsers` tick sends
carries `client_version = v`. -/
theorem welcome_transition (config : Config) (lib : String → Option SteamID)
    (rt : Runtime) (v : Int) (later : List ProgramEvent) (steamID : Option SteamID)
    (now : Int) (hown : TimersOwned rt) (hlater : ∀ e ∈ later, e.carriesVersion = false) :
    (onReceivedFromGC 730 (GCReceived.k_EMsgGCClientWelcome
        { game_data2 := some { global_stats := some ⟨v⟩ } }) rt).threw = false ∧
    (onReceivedFromGC 730 (GCReceived.k_EMsgGCClientWelcome
        { game_data2 := some { global_stats := some ⟨v⟩ } }) rt).rt.vars.currentVersion = v ∧
    (onReceivedFromGC 730 (GCReceived.k_EMsgGCClientWelcome
        { game_data2 := some { global_stats := some ⟨v⟩ } }) rt).rt.live Callback.ConnectToGC = [] ∧
    ((onReceivedFromGC 730 (GCReceived.k_EMsgGCClientWelcome
        { game_data2 := some { global_stats := some ⟨v⟩ } }) rt).rt.live
          Callback.BlockUsers).length = 1 ∧
    (∀ m ∈ (BlockUsers steamID now
        (Runtime.runFrom config lib
          (onReceivedFromGC 730 (GCReceived.k_EMsgGCClientWelcome
            { game_data2 := some { global_stats := some ⟨v⟩ } }) rt).rt later).vars).2,
      ∃ ids, m.payload = GCPayload.CMsgGCCStrike15_v2_MatchmakingStart v 519 ids) := by
  have hres : onReceivedFromGC 730 (GCReceived.k_EMsgGCClientWelcome
      { game_data2 := some { global_stats := some ⟨v⟩ } }) rt
      = onClientWelcome { game_data2 := some { global_stats := some ⟨v⟩ } } rt := rfl
  have hownAfter : TimersOwned
      (onClientWelcome { game_data2 := some { global_stats := some ⟨v⟩ } } rt).rt :=
    onClientWelcome_owned hown _
  rw [hres]
  refine ⟨rfl, rfl, ?_, ?_, ?_⟩
  · rw [onClientWelcome_version, live_eq_nil_iff]
    intro t ht
    rcases List.mem_append.mp ht with h | h
    · exact no_live_after_clear hown Callback.ConnectToGC (mem_clearInterval.mp h).1
    · rw [List.mem_singleton] at h
      subst h
      intro hc
      cases hc
  · have hmem : (⟨rt.nextHandle, Callback.BlockUsers, 2500⟩ : Interval)
        ∈ (onClientWelcome { game_data2 := some { global_stats := some ⟨v⟩ } } rt).rt.intervals := by
      rw [onClientWelcome_version]
      exact List.mem_append.mpr (Or.inr (List.mem_singleton.mpr rfl))
    exact live_length_eq_one hownAfter hmem
  · intro m hm
    have hversion : (Runtime.runFrom config lib
        (onClientWelcome { game_data2 := some { global_stats := some ⟨v⟩ } } rt).rt
        later).vars.currentVersion = v :=
      (runFrom_without_version config lib later _ hlater).1
    cases steamID with
    | none => cases hm
    | some self =>
      have hmsgs := (messages_of_established_tick self now (Runtime.runFrom config lib
        (onClientWelcome { game_data2 := some { global_stats := some ⟨v⟩ } } rt).rt later).vars)
      rw [hmsgs] at hm
      obtain ⟨u, _, hu⟩ := List.mem_map.mp hm
      rw [← hu, hversion]
      exact ⟨_, rfl⟩

/-- C14: an instance. A welcome with version 7 after a completed `loggedOn`, then an `/add`, a
connection status HAVE_SESSION and a block tick at clock 2000 with own account 9. -/
theorem welcome_transition_witness :
    (onReceivedFromGC 730 (GCReceived.k_EMsgGCClientWelcome
        { game_data2 := some { global_stats := some ⟨7⟩ } })
      (Runtime.run sampleConfig sampleFromIndividualAccountID
        [ProgramEvent.loggedOn, ProgramEvent.licenseSettled])).rt.vars.currentVersion = 7 ∧
    (onReceivedFromGC 730 (GCReceived.k_EMsgGCClientWelcome
        { game_data2 := some { global_stats := some ⟨7⟩ } })
      (Runtime.run sampleConfig sampleFromIndividualAccountID
        [ProgramEvent.loggedOn, ProgramEvent.licenseSettled])).rt.live
          Callback.ConnectToGC = [] ∧
    (∀ m ∈ (BlockUsers (some ⟨9, true⟩) 2000
        (Runtime.runFrom sampleConfig sampleFromIndividualAccountID
          (onReceivedFromGC 730 (GCReceived.k_EMsgGCClientWelcome
            { game_data2 := some { global_stats := some ⟨7⟩ } })
            (Runtime.run sampleConfig sampleFromIndividualAccountID
              [ProgramEvent.loggedOn, ProgramEvent.licenseSettled])).rt
          [ProgramEvent.request (sampleRequest Route.add (some "111111111") (some "60")) 1000 1000,
           ProgramEvent.receivedFromGC 730 (GCReceived.k_EMsgGCClientConnectionStatus
             ⟨GCConnectionStatus.GCConnectionStatus_HAVE_SESSION⟩)]).vars).2,
      ∃ ids, m.payload = GCPayload.CMsgGCCStrike15_v2_MatchmakingStart 7 519 ids) :=
  have h := welcome_transition sampleConfig sampleFromIndividualAccountID
    (Runtime.run sampleConfig sampleFromIndividualAccountID
      [ProgramEvent.loggedOn, ProgramEvent.licenseSettled]) 7
    [ProgramEvent.request (sampleRequest Route.add (some "111111111") (some "60")) 1000 1000,
     ProgramEvent.receivedFromGC 730 (GCReceived.k_EMsgGCClientConnectionStatus
       ⟨GCConnectionStatus.GCConnectionStatus_HAVE_SESSION⟩)]
    (some ⟨9, true⟩) 2000
    (runFrom_owned sampleConfig sampleFromIndividualAccountID _ Runtime.initial
      TimersOwned_initial)
    (by decide)
  ⟨h.2.1, h.2.2.1, h.2.2.2.2⟩

/-! ## C16: registry and session are independent -/

/-- A request reads nothing of the state but the registry: its answer and the registry
it leaves are those it gives on the state that holds the same registry and the session
fields of the freshly loaded module. -/
theorem handleRequest_reads_users (config : Config) (lib : String → Option SteamID)
    (req : Request) (tEvict tRoute : Int) (s : State) :
    (handleRequest config lib req tEvict tRoute s).1
      = (handleRequest config lib req tEvict tRoute (stateOf s.users)).1 ∧
    (handleRequest config lib req tEvict tRoute s).2.users
      = (handleRequest config lib req tEvict tRoute (stateOf s.users)).2.users := by
  unfold handleRequest routeHandler getList getAdd getRemove allOther UpdateUsers stateOf
  dsimp only
  repeat' split
  all_goals exact ⟨rfl, rfl⟩

/-- C16. Two states that hold the same registry, whatever their timer handles and
learned version, give every request (with the same configuration and clock readings)
the same answer and the same resulting registry; a request changes neither the timer
variables, nor the learned version, nor the live intervals; and the handlers of
`loggedOn` (before and after its `await`), `receivedFromGC` and `disconnected` and the
hello tick never change the registry. -/
theorem registry_session_independent (config : Config) (lib : String → Option SteamID)
    (req : Request) (tEvict tRoute : Int) (s1 s2 : State) (rt : Runtime) (appID : Nat)
    (msg : GCReceived) :
    (s1.users = s2.users →
      (handleRequest config lib req tEvict tRoute s1).1
        = (handleRequest config lib req tEvict tRoute s2).1 ∧
      (handleRequest config lib req tEvict tRoute s1).2.users
        = (handleRequest config lib req tEvict tRoute s2).2.users) ∧
    ((handleRequest config lib req tEvict tRoute s1).2.connectInterval = s1.connectInterval ∧
      (handleRequest config lib req tEvict tRoute s1).2.blockInterval = s1.blockInterval ∧
      (handleRequest config lib req tEvict tRoute s1).2.currentVersion = s1.currentVersion) ∧
    ((Runtime.step config lib rt (ProgramEvent.request req tEvict tRoute)).intervals
        = rt.intervals ∧
      (Runtime.step config lib rt (ProgramEvent.request req tEvict tRoute)).nextHandle
        = rt.nextHandle) ∧
    (onLoggedOn rt).vars.users = rt.vars.users ∧
    (onLicenseSettled rt).vars.users = rt.vars.users ∧
    (onReceivedFromGC appID msg rt).rt.vars.users = rt.vars.users ∧
    (onDisconnected rt).vars.users = rt.vars.users ∧
    Runtime.step config lib rt ProgramEvent.connectTick = rt := by
  refine ⟨fun h => ?_, handleRequest_session config lib req tEvict tRoute s1, ⟨rfl, rfl⟩,
    rfl, ?_, ?_, rfl, rfl⟩
  · have h1 := handleRequest_reads_users config lib req tEvict tRoute s1
    have h2 := handleRequest_reads_users config lib req tEvict tRoute s2
    rw [h] at h1
    exact ⟨h1.1.trans h2.1.symm, h1.2.trans h2.2.symm⟩
  · unfold onLicenseSettled
    split <;> rfl
  · unfold onReceivedFromGC
    split
    · rfl
    · split
      · unfold onClientWelcome
        split
        · split <;> rfl
        · rfl
      · unfold onConnectionStatus
        split <;> rfl
      · rfl

/-- C16: an instance. The same `/add` on two states with the registry `[{5, 9000}]`, one
freshly loaded and one with timer handles 3 and 4 and learned version 12. -/
theorem registry_session_independent_witness :
    (handleRequest sampleConfig sampleFromIndividualAccountID
        (sampleRequest Route.add (some "111111111") (some "60")) 1000 1000
        (stateOf [⟨5, 9000⟩])).1
      = (handleRequest sampleConfig sampleFromIndividualAccountID
        (sampleRequest Route.add (some "111111111") (some "60")) 1000 1000
        { connectInterval := some 3, blockInterval := some 4, currentVersion := 12,
          users := [⟨5, 9000⟩] }).1 ∧
    (handleRequest sampleConfig sampleFromIndividualAccountID
        (sampleRequest Route.add (some "111111111") (some "60")) 1000 1000
        (stateOf [⟨5, 9000⟩])).2.users
      = (handleRequest sampleConfig sampleFromIndividualAccountID
        (sampleRequest Route.add (some "111111111") (some "60")) 1000 1000
        { connectInterval := some 3, blockInterval := some 4, currentVersion := 12,
          users := [⟨5, 9000⟩] }).2.users :=
  (registry_session_independent sampleConfig sampleFromIndividualAccountID
    (sampleRequest Route.add (some "111111111") (some "60")) 1000 1000
    (stateOf [⟨5, 9000⟩])
    { connectInterval := some 3, blockInterval := some 4, currentVersion := 12,
      users := [⟨5, 9000⟩] }
    Runtime.initial 730 GCReceived.otherMsgType).1 rfl

/-! ## C15: an anomalous welcome -/

/-- C15, the code at the anomalous welcomes. When `game_data2` is absent the handler
completes and leaves the runtime as it was. When `game_data2` is present but its
decoded content has no `global_stats`, the handler is left by the exception of line
200; the runtime is as it was. -/
theorem welcome_anomaly_outcome (rt : Runtime) :
    onReceivedFromGC 730 (GCReceived.k_EMsgGCClientWelcome { game_data2 := none }) rt
      = { rt := rt, threw := false } ∧
    onReceivedFromGC 730
        (GCReceived.k_EMsgGCClientWelcome { game_data2 := some { global_stats := none } }) rt
      = { rt := rt, threw := true } :=
  ⟨rfl, rfl⟩

/-! ## C11 and C12: `loggedOn` while the block-dispatch interval is live -/

/-- C11, the code at the failing input. After `loggedOn`, a welcome with version 5 and
a second `loggedOn` (each `loggedOn` handler resumed before the next event), the phase
of the specification is `Connected` while the block-dispatch interval created by the
welcome is still live, and with the registry
`[{111111111, 61000}]` a tick at clock 2000 sends a block message. After a welcome
whose payload has no `global_stats` the specification is in `Ready` and no
block-dispatch interval is live. -/
theorem dispatch_outside_ready :
    specPhaseAfter [ProgramEvent.loggedOn, ProgramEvent.licenseSettled, welcomeWith 5,
        ProgramEvent.loggedOn, ProgramEvent.licenseSettled]
      = Phase.Connected ∧
    (Runtime.run sampleConfig sampleFromIndividualAccountID
      [ProgramEvent.loggedOn, ProgramEvent.licenseSettled, welcomeWith 5,
        ProgramEvent.loggedOn, ProgramEvent.licenseSettled]).live Callback.BlockUsers
      = [⟨1, Callback.BlockUsers, 2500⟩] ∧
    (BlockUsers (some ⟨9, true⟩) 2000
      (Runtime.run sampleConfig sampleFromIndividualAccountID
        [ProgramEvent.request (sampleRequest Route.add (some "111111111") (some "60")) 1000 1000,
         ProgramEvent.loggedOn, ProgramEvent.licenseSettled, welcomeWith 5,
         ProgramEvent.loggedOn, ProgramEvent.licenseSettled]).vars).2
      = [blockMessage 5 ⟨9, true⟩ ⟨111111111, 61000⟩] ∧
    specPhaseAfter [ProgramEvent.loggedOn, ProgramEvent.licenseSettled,
        ProgramEvent.receivedFromGC 730
          (GCReceived.k_EMsgGCClientWelcome { game_data2 := some { global_stats := none } })]
      = Phase.Ready ∧
    (Runtime.run sampleConfig sampleFromIndividualAccountID
      [ProgramEvent.loggedOn, ProgramEvent.licenseSettled,
        ProgramEvent.receivedFromGC 730
          (GCReceived.k_EMsgGCClientWelcome { game_data2 := some { global_stats := none } })]).live
        Callback.BlockUsers = [] := by
  decide

/-- C12, the code at the failing input. After `loggedOn`, a welcome with version 5 and
a second `loggedOn` (each `loggedOn` handler resumed before the next event), the
hello-attempt interval the second `loggedOn` started and the block-dispatch interval
the welcome started are both live: `loggedOn` starts the one without stopping the
other. -/
theorem hello_and_block_both_live :
    (Runtime.run sampleConfig sampleFromIndividualAccountID
      [ProgramEvent.loggedOn, ProgramEvent.licenseSettled, welcomeWith 5,
        ProgramEvent.loggedOn, ProgramEvent.licenseSettled]).live Callback.ConnectToGC
      = [⟨2, Callback.ConnectToGC, 1000⟩] ∧
    (Runtime.run sampleConfig sampleFromIndividualAccountID
      [ProgramEvent.loggedOn, ProgramEvent.licenseSettled, welcomeWith 5,
        ProgramEvent.loggedOn, ProgramEvent.licenseSettled]).live Callback.BlockUsers
      = [⟨1, Callback.BlockUsers, 2500⟩] ∧
    (loggedOnContinuation (Runtime.run sampleConfig sampleFromIndividualAccountID
      [ProgramEvent.loggedOn, ProgramEvent.licenseSettled, welcomeWith 5])).live
        Callback.BlockUsers
      = (Runtime.run sampleConfig sampleFromIndividualAccountID
      [ProgramEvent.loggedOn, ProgramEvent.licenseSettled, welcomeWith 5]).live
        Callback.BlockUsers := by
  decide

end QueueBlock
